import Mathlib

/-!
Verification of the mazeking toroidal text-maze generator.

This file gives a shallow embedding, in Lean 4, of the core library of the
repository (seeded PRNG, pixel font and boundary analysis, maze generator
phases, movement primitives, persistence and ZK codecs), and proves or
refutes the specification claims about them.

Conventions of the embedding:
* JavaScript 32-bit integer operations are modelled on `Nat` in the unsigned
  representative modulo `2^32` (`u32`); signed/unsigned representatives are
  congruent modulo `2^32`, and every operation used by the source (`+`, `|0`,
  `Math.imul`, `^`, `|`, `>>>`) depends only on that congruence class, with
  `>>>` reading the canonical unsigned representative that `u32` maintains.
* JavaScript arrays become `List`s; out-of-range reads use `getD` defaults at
  indices the source never reads out of range.
* Fractional JS numbers that are exact in binary64 at the sizes the source
  uses (`t / 2^32`, comparisons against `width/3`, `width/4`) are modelled by
  exact rational or scaled-integer arithmetic.

The file is laid out as: all definitions first, then all theorems.
-/

namespace SR

/-- Truncation to the unsigned 32-bit representative (JS `>>> 0` / modular view). -/
def u32 (n : Nat) : Nat := n % 4294967296

/-- Signed 32-bit representative of an integer (JS `| 0`, two's complement). -/
def toI32 (n : Int) : Int :=
  let m := n % 4294967296
  if m < 2147483648 then m else m - 4294967296

/-- One step of `hashString` from seededRandom.ts:
`hash = ((hash << 5) - hash) + charCode; hash = hash & hash`. -/
def hashStep (h : Int) (c : Nat) : Int := toI32 (toI32 (h * 32) - h + c)

/-- `hashString(str)` from seededRandom.ts: fold `hashStep` over the UTF-16
code units and take `Math.abs`. -/
def hashString (s : List Nat) : Nat :=
  (s.foldl hashStep 0).natAbs

/-- The mulberry32 step of `next()` from seededRandom.ts, returning the new
32-bit state together with the 32-bit numerator `(t ^ (t >>> 14)) >>> 0`;
the JS function returns that numerator divided by `4294967296`. -/
def nextStep (s0 : Nat) : Nat × Nat :=
  let s := u32 (s0 + 0x6D2B79F5)
  let t := u32 ((s ^^^ (s >>> 15)) * (1 ||| s))
  let t' := u32 (t + u32 ((t ^^^ (t >>> 7)) * (61 ||| t))) ^^^ t
  (s, t' ^^^ (t' >>> 14))

/-- The float value returned by `next()`: numerator over `2^32`, exact in
binary64 because the numerator is below `2^32`. -/
def nextVal (s0 : Nat) : ℚ := ((nextStep s0).2 : ℚ) / 4294967296

/-- The value of `nextInt(min, max)` from seededRandom.ts:
`Math.floor(next() * (max - min + 1)) + min`. -/
def nextInt (s0 : Nat) (mn mx : ℤ) : ℤ :=
  ⌊nextVal s0 * ((mx - mn + 1 : ℤ) : ℚ)⌋ + mn

end SR

namespace MG

/-- Cell record from types.ts. -/
structure Cell where
  southWall : Bool
  eastWall : Bool
  isTextCell : Bool
  isZkCell : Bool
deriving Repr, DecidableEq

/-- Position record from types.ts. -/
structure Position where
  x : Nat
  y : Nat
deriving Repr, DecidableEq

/-- MazeData record from types.ts; `cells` is row-major, `cells[y][x]`. -/
structure MazeData where
  width : Nat
  height : Nat
  cells : List (List Cell)
deriving Repr, DecidableEq

/-- Default cell used for out-of-range `getD` reads (never hit in-range). -/
def defCell : Cell := ⟨true, true, false, false⟩

/-- Read `cells[y][x]`. -/
def getCell (m : MazeData) (x y : Nat) : Cell :=
  (m.cells.getD y []).getD x defCell

/-- Movement directions of canMove/getNewPosition. -/
inductive Direction
  | up
  | down
  | left
  | right
deriving Repr, DecidableEq

/-- The opposite of a direction. -/
def Direction.opposite : Direction → Direction
  | .up => .down
  | .down => .up
  | .left => .right
  | .right => .left

/-- canMove from seededRandom.ts / mazeGenerator.ts / the ZK consumer (all
three copies are identical): `up` reads the south wall of the cell above
(`(y - 1 + height) % height`), `down` the own south wall, `left` the east
wall of the cell to the left (`(x - 1 + width) % width`), `right` the own
east wall. `y - 1 + height` is written `y + height - 1` on `Nat`. -/
def canMove (m : MazeData) (p : Position) (d : Direction) : Bool :=
  match d with
  | .up => !(getCell m p.x ((p.y + m.height - 1) % m.height)).southWall
  | .down => !(getCell m p.x p.y).southWall
  | .left => !(getCell m ((p.x + m.width - 1) % m.width) p.y).eastWall
  | .right => !(getCell m p.x p.y).eastWall

/-- getNewPosition from the same three sources: one modular step. -/
def getNewPosition (m : MazeData) (p : Position) (d : Direction) : Position :=
  match d with
  | .up => ⟨p.x, (p.y + m.height - 1) % m.height⟩
  | .down => ⟨p.x, (p.y + 1) % m.height⟩
  | .left => ⟨(p.x + m.width - 1) % m.width, p.y⟩
  | .right => ⟨(p.x + 1) % m.width, p.y⟩

/-- Fixture: a 2×1 maze with the wall between the two cells open. -/
def witMaze21 : MazeData :=
  ⟨2, 1, [[⟨true, false, false, false⟩, ⟨false, true, false, false⟩]]⟩

end MG

namespace Zk

/-- Cell record used by the ZK serializer (part_001): walls plus a 2-bit
cell type (0=Normal, 1=Text, 2=ZkText, 3=CrownText). -/
structure ZCell where
  southWall : Bool
  eastWall : Bool
  cellType : Nat
deriving Repr, DecidableEq

/-- Maze data as consumed by the ZK serializer. -/
structure ZMazeData where
  width : Nat
  height : Nat
  cells : List (List ZCell)
deriving Repr, DecidableEq

/-- Default for out-of-range reads. -/
def defZCell : ZCell := ⟨true, true, 0⟩

/-- Read `cells[y][x]`. -/
def getZCell (m : ZMazeData) (x y : Nat) : ZCell :=
  (m.cells.getD y []).getD x defZCell

/-- Move enum from types.ts: Up=0, Right=1, Down=2, Left=3. -/
inductive Move
  | up
  | right
  | down
  | left
deriving Repr, DecidableEq

/-- encodeCell from part_001: bit 3 southWall, bit 2 eastWall, bits 1-0 cellType. -/
def encodeCell (c : ZCell) : Nat :=
  ((if c.southWall then 0x08 else 0) |||
   (if c.eastWall then 0x04 else 0)) |||
  (c.cellType &&& 0x03)

/-- decodeCell from part_001. -/
def decodeCell (d : Nat) : ZCell :=
  ⟨d &&& 0x08 ≠ 0, d &&& 0x04 ≠ 0, d &&& 0x03⟩

/-- packCells from part_001: high nibble even cell, low nibble odd cell. -/
def packCells (evenCell oddCell : Nat) : Nat :=
  ((evenCell &&& 0x0F) <<< 4) ||| (oddCell &&& 0x0F)

/-- unpackCells from part_001. -/
def unpackCells (b : Nat) : Nat × Nat :=
  ((b >>> 4) &&& 0x0F, b &&& 0x0F)

/-- ZkMazeData record from part_001. -/
structure ZkMazeData where
  width : Nat
  height : Nat
  startX : Nat
  startY : Nat
  keyX : Nat
  keyY : Nat
  goalX : Nat
  goalY : Nat
  packedCells : List Nat
deriving Repr, DecidableEq

/-- The packing loop of serializeForZk (`for i += 2`, odd tail padded with 0). -/
def packPairs : List Nat → List Nat
  | [] => []
  | [a] => [packCells a 0]
  | a :: b :: rest => packCells a b :: packPairs rest

/-- serializeForZk from part_001: encode all cells row-major to 4-bit values,
pack two per byte. -/
def serializeForZk (m : ZMazeData) (startP keyP goalP : MG.Position) : ZkMazeData :=
  let encodedCells :=
    (List.range m.height).flatMap (fun y =>
      (List.range m.width).map (fun x => encodeCell (getZCell m x y)))
  { width := m.width, height := m.height,
    startX := startP.x, startY := startP.y,
    keyX := keyP.x, keyY := keyP.y,
    goalX := goalP.x, goalY := goalP.y,
    packedCells := packPairs encodedCells }

/-- moveToDirection from part_001 (`Up=0, Right=1, Down=2, Left=3`). -/
def moveToDirection : Move → Nat
  | .up => 0
  | .right => 1
  | .down => 2
  | .left => 3

/-- serializeMoves from part_001. -/
def serializeMovesZk (moves : List Move) : List Nat :=
  moves.map moveToDirection

/-- `MAX_CELLS` from part_001. -/
def MAX_CELLS : Nat := 2500

/-- `MAX_PACKED_BYTES` from part_001. -/
def MAX_PACKED_BYTES : Nat := 1250

/-- `MAX_MOVES` from part_001. -/
def MAX_MOVES : Nat := 3000

/-- ProverInput record from part_001. -/
structure ProverInput where
  width : Nat
  height : Nat
  start_x : Nat
  start_y : Nat
  key_x : Nat
  key_y : Nat
  goal_x : Nat
  goal_y : Nat
  packed_cells : List Nat
  move_count : Nat
  moves : List Nat
deriving Repr, DecidableEq

/-- The `while (length < N) push(0)` padding of generateProverInput. -/
def padZeros (l : List Nat) (n : Nat) : List Nat :=
  l ++ List.replicate (n - l.length) 0

/-- generateProverInput from part_001; `throw` is modelled as `Except.error`
carrying the message the source builds. -/
def generateProverInput (zkMaze : ZkMazeData) (solutionMoves : List Move) :
    Except String ProverInput :=
  let totalCells := zkMaze.width * zkMaze.height
  if totalCells > MAX_CELLS then
    .error ("Maze too large: " ++ toString totalCells ++
      " cells exceeds max " ++ toString MAX_CELLS)
  else if solutionMoves.length > MAX_MOVES then
    .error ("Too many moves: " ++ toString solutionMoves.length ++
      " exceeds max " ++ toString MAX_MOVES)
  else
    .ok { width := zkMaze.width, height := zkMaze.height,
          start_x := zkMaze.startX, start_y := zkMaze.startY,
          key_x := zkMaze.keyX, key_y := zkMaze.keyY,
          goal_x := zkMaze.goalX, goal_y := zkMaze.goalY,
          packed_cells := padZeros zkMaze.packedCells MAX_PACKED_BYTES,
          move_count := solutionMoves.length,
          moves := padZeros (serializeMovesZk solutionMoves) MAX_MOVES }

/-- Fixture: a 1×1 ZK maze record. -/
def witZkMaze : ZkMazeData := ⟨1, 1, 0, 0, 0, 0, 0, 0, [80]⟩

end Zk

namespace MG

/-- Grid cell read, `cells[y][x]` on a bare grid. -/
def gridCell (g : List (List Cell)) (x y : Nat) : Cell :=
  (g.getD y []).getD x defCell

/-- Replace the cell at `(x, y)` by `f` of its current value (a JS field
assignment on `cells[y][x]`). -/
def modCell (g : List (List Cell)) (x y : Nat) (f : Cell → Cell) : List (List Cell) :=
  g.set y ((g.getD y []).set x (f ((g.getD y []).getD x defCell)))

/-- The body of the createLetterBoundaryWalls double loop (seededRandom.ts,
canonical generator) for the cell at `(x, y)`: a text cell closes its south
and east walls toward non-text neighbours, a non-text cell closes them
toward text neighbours; neighbour lookups wrap modulo the dimensions. -/
def boundaryStep (w h : Nat) (g : List (List Cell)) (x y : Nat) : List (List Cell) :=
  let c := gridCell g x y
  let sTxt := (gridCell g x ((y + 1) % h)).isTextCell
  let eTxt := (gridCell g ((x + 1) % w) y).isTextCell
  if c.isTextCell then
    let g1 := if !sTxt then modCell g x y (fun c => { c with southWall := true }) else g
    if !eTxt then modCell g1 x y (fun c => { c with eastWall := true }) else g1
  else
    let g1 := if sTxt then modCell g x y (fun c => { c with southWall := true }) else g
    if eTxt then modCell g1 x y (fun c => { c with eastWall := true }) else g1

/-- Fold of `boundaryStep` over a list of coordinates. -/
def boundaryGo (w h : Nat) (g : List (List Cell)) (l : List (Nat × Nat)) :
    List (List Cell) :=
  l.foldl (fun g p => boundaryStep w h g p.1 p.2) g

/-- Row-major coordinate list of the double loop (`y` outer, `x` inner). -/
def rowMajor (w h : Nat) : List (Nat × Nat) :=
  (List.range h).flatMap (fun y => (List.range w).map (fun x => (x, y)))

/-- createLetterBoundaryWalls from seededRandom.ts (canonical generator):
the nested `for y / for x` loop as a fold over the row-major coordinates. -/
def createLetterBoundaryWalls (m : MazeData) : MazeData :=
  { m with cells := boundaryGo m.width m.height m.cells (rowMajor m.width m.height) }

/-- Fixture: a 2×2 grid with one text cell, for the C5 witness. -/
def witMaze22 : MazeData :=
  ⟨2, 2, [[⟨false, false, true, false⟩, ⟨false, false, false, false⟩],
          [⟨false, false, false, false⟩, ⟨false, false, false, false⟩]]⟩

end MG

namespace PF

/-- Wall sides of an entry point. -/
inductive Side
  | top
  | right
  | bottom
  | left
deriving Repr, DecidableEq

/-- Flip of a side (enclosed-region entries store the side relative to the
filled cell, so the algorithm flips the probe direction). -/
def flipSide : Side → Side
  | .top => .bottom
  | .bottom => .top
  | .left => .right
  | .right => .left

/-- EntryPoint record from pixelFont.ts / part_003. -/
structure EntryPoint where
  x : Nat
  y : Nat
  side : Side
deriving Repr, DecidableEq

/-- The `p` helper of both font files: `'#'` becomes `true`. -/
def p (rows : List String) : List (List Bool) :=
  rows.map (fun r => r.data.map (fun c => c = '#'))

/-- Neighbour offsets N, E, S, W (the `dirs` array). -/
def dirs : List (Int × Int) := [(-1, 0), (0, 1), (1, 0), (0, -1)]

/-- The `sideMap` array: offset plus the side the entry faces. -/
def sideMap : List (Int × Int × Side) :=
  [(-1, 0, .top), (0, 1, .right), (1, 0, .bottom), (0, -1, .left)]

/-- Read `g[y][x]` with JS undefined-as-false semantics (also models reads
past the end of a ragged pattern row). -/
def gBool (g : List (List Bool)) (y x : Nat) : Bool :=
  (g.getD y []).getD x false

/-- Write `g[y][x] := v`. -/
def sBool (g : List (List Bool)) (y x : Nat) (v : Bool) : List (List Bool) :=
  g.set y ((g.getD y []).set x v)

/-- Padded grid of getCharacterBoundaries: 1-cell empty border around the
H×W pattern. -/
def padGrid (pat : List (List Bool)) (H W : Nat) : List (List Bool) :=
  (List.range (H + 2)).map (fun y =>
    (List.range (W + 2)).map (fun x =>
      if 1 ≤ y ∧ y ≤ H ∧ 1 ≤ x ∧ x ≤ W then gBool pat (y - 1) (x - 1) else false))

/-- One dequeued step of the external flood fill: visit the four neighbours
of `(cy, cx)` in N, E, S, W order, mark unvisited empty ones and return the
cells to enqueue. -/
def extFloodStep (pH pW : Nat) (padded ext : List (List Bool)) (cy cx : Nat) :
    List (List Bool) × List (Nat × Nat) :=
  dirs.foldl (fun acc d =>
    let ny : Int := (cy : Int) + d.1
    let nx : Int := (cx : Int) + d.2
    if 0 ≤ ny ∧ ny < (pH : Int) ∧ 0 ≤ nx ∧ nx < (pW : Int) then
      if !gBool padded ny.toNat nx.toNat && !gBool acc.1 ny.toNat nx.toNat then
        (sBool acc.1 ny.toNat nx.toNat true, acc.2 ++ [(ny.toNat, nx.toNat)])
      else acc
    else acc) (ext, [])

/-- The external BFS flood fill (`while queue.length > 0 { shift(); ... }`)
with fuel: every iteration pops one element and every push marks a fresh
cell, so `pH * pW + 1` iterations always drain the queue. -/
def extFlood (fuel pH pW : Nat) (padded ext : List (List Bool))
    (queue : List (Nat × Nat)) : List (List Bool) :=
  match fuel with
  | 0 => ext
  | fuel + 1 =>
    match queue with
    | [] => ext
    | (cy, cx) :: rest =>
      let r := extFloodStep pH pW padded ext cy cx
      extFlood fuel pH pW padded r.1 (rest ++ r.2)

/-- The external-empty marking of getCharacterBoundaries: flood from the
padding corner `(0, 0)`. -/
def externalGrid (padded : List (List Bool)) (H W : Nat) : List (List Bool) :=
  let pH := H + 2
  let pW := W + 2
  let ext0 := sBool ((List.range pH).map (fun _ => List.replicate pW false)) 0 0 true
  extFlood (pH * pW + 1) pH pW padded ext0 [(0, 0)]

/-- One dequeued step of an enclosed-region flood fill (interior band
`1 ≤ y ≤ H`, `1 ≤ x ≤ W`, over empty non-external unassigned cells). -/
def enclFloodStep (H W : Nat) (padded ext assigned : List (List Bool))
    (cy cx : Nat) : List (List Bool) × List (Nat × Nat) :=
  dirs.foldl (fun acc d =>
    let ny : Int := (cy : Int) + d.1
    let nx : Int := (cx : Int) + d.2
    if 1 ≤ ny ∧ ny ≤ (H : Int) ∧ 1 ≤ nx ∧ nx ≤ (W : Int) then
      if !gBool padded ny.toNat nx.toNat && !gBool ext ny.toNat nx.toNat &&
          !gBool acc.1 ny.toNat nx.toNat then
        (sBool acc.1 ny.toNat nx.toNat true, acc.2 ++ [(ny.toNat, nx.toNat)])
      else acc
    else acc) (assigned, [])

/-- Enclosed-region flood fill; cells are collected in dequeue order. -/
def enclFlood (fuel H W : Nat) (padded ext : List (List Bool))
    (assigned : List (List Bool)) (queue cells : List (Nat × Nat)) :
    List (Nat × Nat) × List (List Bool) :=
  match fuel with
  | 0 => (cells, assigned)
  | fuel + 1 =>
    match queue with
    | [] => (cells, assigned)
    | (cy, cx) :: rest =>
      let r := enclFloodStep H W padded ext assigned cy cx
      enclFlood fuel H W padded ext r.1 (rest ++ r.2) (cells ++ [(cy, cx)])

/-- Boundary of one enclosed region: filled neighbours of region cells, with
the side flipped and `(x, y, side)` de-duplicated in first-seen order. -/
def regionInternalBoundary (H W : Nat) (padded : List (List Bool))
    (cells : List (Nat × Nat)) : List EntryPoint :=
  (cells.foldl (fun (acc : List (Nat × Nat × Side) × List EntryPoint) yx =>
    sideMap.foldl (fun acc d =>
      let ny : Int := (yx.1 : Int) + d.1
      let nx : Int := (yx.2 : Int) + d.2.1
      if 1 ≤ ny ∧ ny ≤ (H : Int) ∧ 1 ≤ nx ∧ nx ≤ (W : Int) then
        if gBool padded ny.toNat nx.toNat then
          let k : Nat × Nat × Side := (nx.toNat - 1, ny.toNat - 1, d.2.2)
          if acc.1.contains k then acc
          else (acc.1 ++ [k], acc.2 ++ [⟨nx.toNat - 1, ny.toNat - 1, flipSide d.2.2⟩])
        else acc
      else acc) acc) (([], []) : List (Nat × Nat × Side) × List EntryPoint)).2

/-- The enclosed-region scan of getCharacterBoundaries: row-major over the
interior, flood-fill each unassigned enclosed cell, keep nonempty
boundaries. -/
def internalRegions (padded ext : List (List Bool)) (H W : Nat) :
    List (List EntryPoint) :=
  (((List.range H).flatMap (fun i => (List.range W).map (fun j => (i + 1, j + 1)))).foldl
    (fun (st : List (List Bool) × List (List EntryPoint)) yx =>
      if !gBool padded yx.1 yx.2 && !gBool ext yx.1 yx.2 &&
          !gBool st.1 yx.1 yx.2 then
        let r := enclFlood (H * W + 1) H W padded ext
          (sBool st.1 yx.1 yx.2 true) [(yx.1, yx.2)] []
        let rb := regionInternalBoundary H W padded r.1
        (r.2, if rb.length > 0 then st.2 ++ [rb] else st.2)
      else st)
    (((List.range (H + 2)).map (fun _ => List.replicate (W + 2) false)), [])).2

end PF

namespace Font

/-- The PIXEL_FONT table of pixelFont.ts, via the `p` helper (`'#'` = filled). -/
def PIXEL_FONT : List (Char × List (List Bool)) := [
  ('A', PF.p [".###.", "##.##", "#...#", "#...#", "#####", "#...#", "#...#", "#...#"]),
  ('B', PF.p ["#####", "#...#", "#..##", "####.", "#..##", "#...#", "#...#", "#####"]),
  ('C', PF.p [".###.", "##...", "#....", "#....", "#....", "#....", "##...", ".###."]),
  ('D', PF.p ["####.", "#..##", "#...#", "#...#", "#...#", "#...#", "#..##", "####."]),
  ('E', PF.p ["#####", "#....", "#....", "####.", "#....", "#....", "#....", "#####"]),
  ('F', PF.p ["#####", "#....", "#....", "####.", "#....", "#....", "#....", "#...."]),
  ('G', PF.p [".####", "##...", "#....", "#....", "#.###", "#...#", "#..##", "####."]),
  ('H', PF.p ["#...#", "#...#", "#...#", "#####", "#...#", "#...#", "#...#", "#...#"]),
  ('I', PF.p ["#####", "..#..", "..#..", "..#..", "..#..", "..#..", "..#..", "#####"]),
  ('J', PF.p ["#####", "....#", "....#", "....#", "....#", "#...#", "##.##", ".###."]),
  ('K', PF.p ["#...#", "#..##", "#.##.", "###..", "###..", "#.##.", "#..##", "#...#"]),
  ('L', PF.p ["#....", "#....", "#....", "#....", "#....", "#....", "#....", "#####"]),
  ('M', PF.p ["#...#", "##.##", "#####", "#.#.#", "#.#.#", "#...#", "#...#", "#...#"]),
  ('N', PF.p ["#...#", "##..#", "###.#", "#.#.#", "#.#.#", "#.###", "#..##", "#...#"]),
  ('O', PF.p [".###.", "##.##", "#...#", "#...#", "#...#", "#...#", "##.##", ".###."]),
  ('P', PF.p ["#####", "#...#", "#...#", "#..##", "####.", "#....", "#....", "#...."]),
  ('Q', PF.p [".###.", "##.##", "#...#", "#...#", "#.#.#", "#.###", "##.##", ".####"]),
  ('R', PF.p ["#####", "#...#", "#...#", "####.", "###..", "#.##.", "#..##", "#...#"]),
  ('S', PF.p ["#####", "#....", "##...", ".####", "....#", "....#", "#...#", "#####"]),
  ('T', PF.p ["#####", "..#..", "..#..", "..#..", "..#..", "..#..", "..#..", "..#.."]),
  ('U', PF.p ["#...#", "#...#", "#...#", "#...#", "#...#", "#...#", "##.##", ".###."]),
  ('V', PF.p ["#...#", "#...#", "#...#", "#...#", "#...#", "##.##", ".###.", "..#.."]),
  ('W', PF.p ["#...#", "#...#", "#...#", "#.#.#", "#.#.#", "#.#.#", "#####", ".#.#."]),
  ('X', PF.p ["#...#", "##.##", ".###.", "..#..", "..#..", ".###.", "##.##", "#...#"]),
  ('Y', PF.p ["#...#", "#...#", "##.##", ".###.", "..#..", "..#..", "..#..", "..#.."]),
  ('Z', PF.p ["#####", "....#", "...##", "..##.", ".##..", "##...", "#....", "#####"]),
  ('0', PF.p [".###.", "##.##", "#...#", "#.#.#", "#.#.#", "#...#", "##.##", ".###."]),
  ('1', PF.p ["..#..", ".##..", "..#..", "..#..", "..#..", "..#..", "..#..", "#####"]),
  ('2', PF.p [".###.", "##.##", "....#", "..###", ".##..", "##...", "#....", "#####"]),
  ('3', PF.p [".###.", "##.##", "....#", "..###", "....#", "....#", "##.##", ".###."]),
  ('4', PF.p ["#...#", "#...#", "#...#", "#####", "....#", "....#", "....#", "....#"]),
  ('5', PF.p ["#####", "#....", "#....", "#####", "....#", "....#", "##.##", ".###."]),
  ('6', PF.p [".####", "##..#", "#....", "####.", "#..##", "#...#", "##.##", ".###."]),
  ('7', PF.p ["#####", "....#", "....#", "...##", "..##.", "..#..", "..#..", "..#.."]),
  ('8', PF.p [".###.", "##.##", "#...#", "##.##", "#####", "#...#", "##.##", ".###."]),
  ('9', PF.p [".###.", "##.##", "#...#", "##.##", ".####", "....#", "#..##", "####."]),
  (' ', PF.p ["...", "...", "...", "...", "...", "...", "...", "..."]),
  ('.', PF.p ["..", "..", "..", "..", "..", "..", "##", "##"]),
  (',', PF.p ["..", "..", "..", "..", "..", "##", ".#", ".#"]),
  ('!', PF.p ["##", "##", "##", "##", "##", "..", "##", "##"]),
  ('?', PF.p [".###.", "##.##", "....#", "..###", "..#..", "..#..", ".....", "..#.."]),
  ('\'', PF.p ["##", "##", "##", "..", "..", "..", "..", ".."]),
  ('-', PF.p ["....", "....", "....", "####", "....", "....", "....", "...."]),
  (':', PF.p ["..", "##", "##", "..", "..", "##", "##", ".."]),
  ('a', PF.p [".....", ".....", ".####", "....#", ".####", "##..#", "#...#", "#####"]),
  ('b', PF.p ["#....", "#....", "#....", "#####", "#...#", "#...#", "#..##", "####."]),
  ('c', PF.p [".....", ".....", ".###.", "##...", "#....", "#....", "##...", ".###."]),
  ('d', PF.p ["....#", "....#", "....#", ".####", "##..#", "#...#", "##.##", ".####"]),
  ('e', PF.p [".....", ".....", "####.", "#..##", "#..##", "####.", "#....", "####."]),
  ('f', PF.p [".###.", ".#.#.", ".#...", "###..", ".#...", ".#...", ".#...", ".#..."]),
  ('g', PF.p [".....", ".....", "#####", "#...#", "##..#", ".####", "....#", ".####"]),
  ('h', PF.p ["#....", "#....", "#....", "####.", "#..##", "#...#", "#...#", "#...#"]),
  ('i', PF.p ["..#..", ".....", ".##..", "..#..", "..#..", "..#..", "..#..", ".###."]),
  ('j', PF.p ["...#.", ".....", "..###", "...#.", "...#.", "...#.", "..##.", ".##.."]),
  ('k', PF.p ["#....", "#....", "#..#.", "#.##.", "###..", "#.##.", "#..#.", "#..#."]),
  ('l', PF.p ["##...", ".#...", ".#...", ".#...", ".#...", ".#...", ".#.#.", ".###."]),
  ('m', PF.p [".....", ".....", "#####", "#.#.#", "#.#.#", "#.#.#", "#...#", "#...#"]),
  ('n', PF.p [".....", ".....", ".###.", "##.##", "#...#", "#...#", "#...#", "#...#"]),
  ('o', PF.p [".....", ".....", ".###.", "##.##", "#...#", "#...#", "##.##", ".###."]),
  ('p', PF.p [".....", ".....", "#####", "#...#", "#..##", "####.", "#....", "#...."]),
  ('q', PF.p [".....", ".....", "#####", "#...#", "##..#", ".####", "....#", "....#"]),
  ('r', PF.p ["....", "....", ".##.", "####", "#..#", "#...", "#...", "#..."]),
  ('s', PF.p [".....", ".....", "####.", "#....", "#####", "....#", "#...#", "#####"]),
  ('t', PF.p [".#...", ".#...", "####.", ".#...", ".#...", ".#...", ".##..", "..##."]),
  ('u', PF.p [".....", ".....", "#...#", "#...#", "#...#", "#...#", "##..#", ".####"]),
  ('v', PF.p [".....", ".....", "#...#", "#...#", "#...#", "##.##", ".###.", "..#.."]),
  ('w', PF.p [".....", ".....", "#...#", "#...#", "#.#.#", "#.#.#", "#####", ".#.#."]),
  ('x', PF.p [".....", ".....", "#...#", "##.##", ".###.", "##.##", "#...#", "#...#"]),
  ('y', PF.p [".....", ".....", "#...#", "#...#", "##..#", ".####", "....#", ".####"]),
  ('z', PF.p [".....", ".....", "#####", "....#", "..###", "###..", "#....", "#####"])]

end Font

namespace Font3

/-- The PIXEL_FONT table of part_003, via the `p` helper (`'#'` = filled). -/
def PIXEL_FONT : List (Char × List (List Bool)) := [
  ('A', PF.p [".###.", "##.##", "#...#", "#...#", "#####", "#...#", "#...#", "#...#"]),
  ('B', PF.p ["#####", "#...#", "#..##", "####.", "#..##", "#...#", "#...#", "#####"]),
  ('C', PF.p [".###.", "##...", "#....", "#....", "#....", "#....", "##...", ".###."]),
  ('D', PF.p ["####.", "#..##", "#...#", "#...#", "#...#", "#...#", "#..##", "####."]),
  ('E', PF.p ["#####", "#....", "#....", "####.", "#....", "#....", "#....", "#####"]),
  ('F', PF.p ["#####", "#....", "#....", "####.", "#....", "#....", "#....", "#...."]),
  ('G', PF.p [".####", "##...", "#....", "#....", "#.###", "#...#", "#..##", "####."]),
  ('H', PF.p ["#...#", "#...#", "#...#", "#####", "#...#", "#...#", "#...#", "#...#"]),
  ('I', PF.p ["#####", "..#..", "..#..", "..#..", "..#..", "..#..", "..#..", "#####"]),
  ('J', PF.p ["#####", "....#", "....#", "....#", "....#", "#...#", "##.##", ".###."]),
  ('K', PF.p ["#...#", "#..##", "#.##.", "###..", "###..", "#.##.", "#..##", "#...#"]),
  ('L', PF.p ["#....", "#....", "#....", "#....", "#....", "#....", "#....", "#####"]),
  ('M', PF.p ["#...#", "##.##", "#####", "#.#.#", "#.#.#", "#...#", "#...#", "#...#"]),
  ('N', PF.p ["#...#", "##..#", "###.#", "#.#.#", "#.#.#", "#.###", "#..##", "#...#"]),
  ('O', PF.p [".###.", "##.##", "#...#", "#...#", "#...#", "#...#", "##.##", ".###."]),
  ('P', PF.p ["#####", "#...#", "#...#", "#..##", "####.", "#....", "#....", "#...."]),
  ('Q', PF.p [".###.", "##.##", "#...#", "#...#", "#.#.#", "#.###", "##.##", ".####"]),
  ('R', PF.p ["####.", "#..##", "#...#", "#..##", "####.", "#.##.", "#..##", "#...#"]),
  ('S', PF.p ["#####", "#....", "##...", ".####", "....#", "....#", "#...#", "#####"]),
  ('T', PF.p ["#####", "..#..", "..#..", "..#..", "..#..", "..#..", "..#..", "..#.."]),
  ('U', PF.p ["#...#", "#...#", "#...#", "#...#", "#...#", "#...#", "##..#", ".####"]),
  ('V', PF.p ["#...#", "#...#", "#...#", "#...#", "#...#", "##.##", ".###.", "..#.."]),
  ('W', PF.p ["#...#", "#...#", "#...#", "#.#.#", "#.#.#", "#.#.#", "#####", ".#.#."]),
  ('X', PF.p ["#...#", "##.##", ".###.", "..#..", "..#..", ".###.", "##.##", "#...#"]),
  ('Y', PF.p ["#...#", "#...#", "##.##", ".###.", "..#..", "..#..", "..#..", "..#.."]),
  ('Z', PF.p ["#####", "....#", "...##", "..##.", ".##..", "##...", "#....", "#####"]),
  ('0', PF.p [".###.", "##.##", "#...#", "#.#.#", "#.#.#", "#...#", "##.##", ".###."]),
  ('1', PF.p ["..#..", ".##..", "..#..", "..#..", "..#..", "..#..", "..#..", "#####"]),
  ('2', PF.p [".###.", "##.##", "....#", "..###", ".##..", "##...", "#....", "#####"]),
  ('3', PF.p [".###.", "##.##", "....#", "..###", "....#", "....#", "##.##", ".###."]),
  ('4', PF.p ["#...#", "#...#", "#...#", "#####", "....#", "....#", "....#", "....#"]),
  ('5', PF.p ["#####", "#....", "#....", "#####", "....#", "....#", "##.##", ".###."]),
  ('6', PF.p [".####", "##..#", "#....", "####.", "#..##", "#...#", "##.##", ".###."]),
  ('7', PF.p ["#####", "....#", "....#", "...##", "..##.", "..#..", "..#..", "..#.."]),
  ('8', PF.p [".###.", "##.##", "#...#", "##.##", "#####", "#...#", "##.##", ".###."]),
  ('9', PF.p [".###.", "##.##", "#...#", "##.##", ".####", "....#", "#..##", "####."]),
  (' ', PF.p ["..", "..", "..", "..", "..", "..", "..", ".."]),
  ('.', PF.p ["...", "...", "...", "...", "...", "...", "...", "#.."]),
  (',', PF.p ["...", "...", "...", "...", "...", "...", "...", "#..", "#..", "..."]),
  ('!', PF.p ["#", "#", "#", "#", "#", "#", ".", "#"]),
  ('?', PF.p [".###.", "##.##", "#...#", "...##", "..##.", "..#.", ".....", "..#.."]),
  ('\"', PF.p ["#.#", "#.#", "...", "...", "...", "...", "...", "..."]),
  ('\'', PF.p ["#", "#", ".", ".", ".", ".", ".", "."]),
  ('-', PF.p ["....", "....", "....", "....", "####", "....", "....", "...."]),
  (':', PF.p ["..", "..", "#.", "..", "..", "#.", "..", ".."]),
  ('♚', PF.p ["..........", "..........", "..........", ".#.#.#.#..", ".#######..", ".#.#.#.#..", "..#####...", ".........."]),
  ('a', PF.p ["....", "....", "....", "####", "...#", "####", "#..#", "####"]),
  ('b', PF.p ["#....", "#....", "#....", "####.", "##.##", "#...#", "##.##", "####."]),
  ('c', PF.p ["....", "....", "....", ".###", "##..", "#...", "##..", ".###"]),
  ('d', PF.p ["....#", "....#", "....#", ".####", "##.##", "#...#", "##.##", ".####"]),
  ('e', PF.p ["....", "....", "....", "####", "#..#", "####", "#...", "####"]),
  ('f', PF.p [".###", ".#.#", ".#..", "###.", ".#..", ".#..", ".#..", ".#.."]),
  ('g', PF.p ["....", "....", "....", ".###", "##.#", "#..#", "##.#", ".###", "...#", ".###"]),
  ('h', PF.p ["#...", "#...", "#...", "###.", "#.##", "#..#", "#..#", "#..#"]),
  ('i', PF.p ["...", ".#.", "...", "##.", ".#.", ".#.", ".#.", "###"]),
  ('j', PF.p ["...", "..#", "...", ".##", "..#", "..#", "..#", "..#", "..#", "###"]),
  ('k', PF.p ["#...", "#...", "#..#", "#.##", "###.", "#.##", "#..#", "#..#"]),
  ('l', PF.p ["##..", ".#..", ".#..", ".#..", ".#..", ".#..", ".#.#", ".###"]),
  ('m', PF.p [".....", ".....", ".....", "#####", "#.#.#", "#.#.#", "#...#", "#...#"]),
  ('n', PF.p [".....", ".....", ".....", ".###.", "##.##", "#...#", "#...#", "#...#"]),
  ('o', PF.p [".....", ".....", ".....", ".###.", "##.##", "#...#", "##.##", ".###."]),
  ('p', PF.p ["....", "....", "....", "###.", "#.##", "#..#", "#.##", "###.", "#...", "#..."]),
  ('q', PF.p ["....", "....", "....", ".###", "##.#", "#..#", "##.#", ".###", "...#", "...#"]),
  ('r', PF.p ["....", "....", "....", ".##.", "####", "#..#", "#...", "#..."]),
  ('s', PF.p [".....", ".....", "....", ".###.", "##...", ".###.", "...##", "####."]),
  ('t', PF.p [".#..", ".#..", ".#..", "####", ".#..", ".#..", ".#.#", ".###"]),
  ('u', PF.p ["....", "....", "....", "#..#", "#..#", "#..#", "##.#", ".###"]),
  ('v', PF.p [".....", ".....", ".....", "#...#", "#...#", "##.##", ".###.", "..#.."]),
  ('w', PF.p [".....", ".....", ".....", "#...#", "#.#.#", "#.#.#", "#####", ".#.#."]),
  ('x', PF.p ["....", "....", "....", "#..#", "####", ".##.", "####", "#..#"]),
  ('y', PF.p ["....", "....", "....", "#..#", "#..#", "#..#", "##.#", ".###", "...#", ".###"]),
  ('z', PF.p ["....", "....", "....", "####", "..##", ".##.", "##..", "####"])]

end Font3

namespace Font

/-- CharacterBoundaries record of pixelFont.ts: flat external list, one
internal list per enclosed region. -/
structure CharacterBoundaries where
  external : List PF.EntryPoint
  internal : List (List PF.EntryPoint)
deriving Repr, DecidableEq

/-- Direct `PIXEL_FONT[char]` lookup (no case fallback, as in
getCharacterBoundaries). -/
def lookup (c : Char) : Option (List (List Bool)) :=
  (PIXEL_FONT.find? (fun e => e.1 = c)).map (·.2)

/-- The flat external boundary scan of pixelFont.ts getCharacterBoundaries:
row-major over filled cells, one entry per side facing external space. -/
def externalBoundaryFlat (pat ext : List (List Bool)) (H W : Nat) :
    List PF.EntryPoint :=
  (List.range H).flatMap (fun y =>
    (List.range W).flatMap (fun x =>
      if PF.gBool pat y x then
        PF.sideMap.filterMap (fun d =>
          let ny : Int := (y + 1 : Int) + d.1
          let nx : Int := (x + 1 : Int) + d.2.1
          if PF.gBool ext ny.toNat nx.toNat then
            some ⟨x, y, d.2.2⟩
          else none)
      else []))

/-- getCharacterBoundaries from pixelFont.ts (the memo cache is dropped:
the function is pure). -/
def getCharacterBoundaries (c : Char) : CharacterBoundaries :=
  match lookup c with
  | none => ⟨[], []⟩
  | some pat =>
    if pat.length = 0 then ⟨[], []⟩
    else
      let H := pat.length
      let W := (pat.getD 0 []).length
      let padded := PF.padGrid pat H W
      let ext := PF.externalGrid padded H W
      ⟨externalBoundaryFlat pat ext H W, PF.internalRegions padded ext H W⟩

/-- calculateEntryCount from pixelFont.ts. -/
def calculateEntryCount (boundarySize : Nat) (isInternal : Bool) : Nat :=
  if boundarySize = 0 then 0
  else if isInternal then min 2 (max 1 (boundarySize / 6))
  else min 6 (max 3 (boundarySize / 4))

end Font

namespace Font3

/-- CharacterBoundaries record of part_003: one external list per
disconnected filled region. -/
structure CharacterBoundaries where
  external : List (List PF.EntryPoint)
  internal : List (List PF.EntryPoint)
deriving Repr, DecidableEq

/-- Direct `PIXEL_FONT[char]` lookup. -/
def lookup (c : Char) : Option (List (List Bool)) :=
  (PIXEL_FONT.find? (fun e => e.1 = c)).map (·.2)

/-- One dequeued step of a filled-component flood fill over the raw pattern. -/
def compFloodStep (H W : Nat) (pat assigned : List (List Bool)) (cy cx : Nat) :
    List (List Bool) × List (Nat × Nat) :=
  PF.dirs.foldl (fun acc d =>
    let ny : Int := (cy : Int) + d.1
    let nx : Int := (cx : Int) + d.2
    if 0 ≤ ny ∧ ny < (H : Int) ∧ 0 ≤ nx ∧ nx < (W : Int) then
      if PF.gBool pat ny.toNat nx.toNat && !PF.gBool acc.1 ny.toNat nx.toNat then
        (PF.sBool acc.1 ny.toNat nx.toNat true, acc.2 ++ [(ny.toNat, nx.toNat)])
      else acc
    else acc) (assigned, [])

/-- Filled-component flood fill; cells are collected in dequeue order. -/
def compFlood (fuel H W : Nat) (pat : List (List Bool))
    (assigned : List (List Bool)) (queue cells : List (Nat × Nat)) :
    List (Nat × Nat) × List (List Bool) :=
  match fuel with
  | 0 => (cells, assigned)
  | fuel + 1 =>
    match queue with
    | [] => (cells, assigned)
    | (cy, cx) :: rest =>
      let r := compFloodStep H W pat assigned cy cx
      compFlood fuel H W pat r.1 (rest ++ r.2) (cells ++ [(cy, cx)])

/-- Row-major scan finding the disconnected filled regions of the pattern
(part_003 getCharacterBoundaries). -/
def filledRegions (pat : List (List Bool)) (H W : Nat) :
    List (List (Nat × Nat)) :=
  (((List.range H).flatMap (fun y => (List.range W).map (fun x => (y, x)))).foldl
    (fun (st : List (List Bool) × List (List (Nat × Nat))) yx =>
      if PF.gBool pat yx.1 yx.2 && !PF.gBool st.1 yx.1 yx.2 then
        let r := compFlood (H * W + 1) H W pat
          (PF.sBool st.1 yx.1 yx.2 true) [(yx.1, yx.2)] []
        (r.2, st.2 ++ [r.1])
      else st)
    ((List.range H).map (fun _ => List.replicate W false), [])).2

/-- External boundary of one filled region: member cells with an
externally-reachable empty neighbour, tagged with the facing side. -/
def regionExternalBoundary (ext : List (List Bool)) (cells : List (Nat × Nat)) :
    List PF.EntryPoint :=
  cells.flatMap (fun yx =>
    PF.sideMap.filterMap (fun d =>
      let ny : Int := (yx.1 + 1 : Int) + d.1
      let nx : Int := (yx.2 + 1 : Int) + d.2.1
      if PF.gBool ext ny.toNat nx.toNat then
        some ⟨yx.2, yx.1, d.2.2⟩
      else none))

/-- getCharacterBoundaries from part_003: per-component external
boundaries (components with an empty boundary are skipped by the
`regionBoundary.length > 0` guard), enclosed regions as in pixelFont.ts. -/
def getCharacterBoundaries (c : Char) : CharacterBoundaries :=
  match lookup c with
  | none => ⟨[], []⟩
  | some pat =>
    if pat.length = 0 then ⟨[], []⟩
    else
      let H := pat.length
      let W := (pat.getD 0 []).length
      let padded := PF.padGrid pat H W
      let ext := PF.externalGrid padded H W
      let externals := (filledRegions pat H W).foldl (fun acc cells =>
        let rb := regionExternalBoundary ext cells
        if rb.length > 0 then acc ++ [rb] else acc) []
      ⟨externals, PF.internalRegions padded ext H W⟩

end Font3

namespace Spec2

/-- Bit mask of a Boolean row: bit `x` is row element `x`. -/
def rowMask : List Bool → Nat
  | [] => 0
  | b :: r => (if b then 1 else 0) + 2 * rowMask r

/-- Masks of the filled cells of the pattern, one `Nat` per row, width
normalised to `W` (ragged reads count as empty, as in the source). -/
def filledMasks (pat : List (List Bool)) (H W : Nat) : List Nat :=
  (List.range H).map (fun y => rowMask ((List.range W).map (fun x => PF.gBool pat y x)))

/-- All-ones mask of width `W`. -/
def fullMask (W : Nat) : Nat := 2 ^ W - 1

/-- Empty-cell masks of the padded `(H+2)×(W+2)` grid: the border is empty,
interior bit `x+1` of row `y+1` is set iff pattern cell `(x, y)` is empty. -/
def paddedEmptyMasks (pat : List (List Bool)) (H W : Nat) : List Nat :=
  (List.range (H + 2)).map (fun y =>
    if y = 0 ∨ y = H + 1 then fullMask (W + 2)
    else fullMask (W + 2) ^^^ (((filledMasks pat H W).getD (y - 1) 0) <<< 1))

/-- One synchronous expansion of a cell set along 4-adjacency, restricted to
`allowed`. -/
def expandOnce (allowed cur : List Nat) : List Nat :=
  (List.range allowed.length).map (fun y =>
    let row := cur.getD y 0
    let up := if y = 0 then 0 else cur.getD (y - 1) 0
    let dn := cur.getD (y + 1) 0
    (row ||| (row <<< 1) ||| (row >>> 1) ||| up ||| dn) &&& allowed.getD y 0)

/-- Iterated expansion; with fuel at least the number of cells this is the
4-connected reachability closure of the seed inside `allowed`. -/
def expandFix : Nat → List Nat → List Nat → List Nat
  | 0, _, cur => cur
  | n + 1, allowed, cur =>
    let nxt := expandOnce allowed cur
    if nxt == cur then cur else expandFix n allowed nxt

/-- Bit test on a mask grid. -/
def testG (g : List Nat) (y x : Nat) : Bool := (g.getD y 0).testBit x

/-- A one-cell seed grid. -/
def seedG (len y x : Nat) : List Nat :=
  (List.range len).map (fun j => if j = y then 2 ^ x else 0)

/-- The externally-reachable empty region of the padded grid: the
4-connected closure of the padding corner inside the empty cells. -/
def extReach (pat : List (List Bool)) (H W : Nat) : List Nat :=
  expandFix ((H + 2) * (W + 2)) (paddedEmptyMasks pat H W) (seedG (H + 2) 0 0)

/-- Pointwise OR of two mask grids. -/
def orG (a b : List Nat) : List Nat :=
  (List.range a.length).map (fun y => a.getD y 0 ||| b.getD y 0)

/-- The 4-connected components of the filled cells, in row-major order of
their first cell; each component is a mask grid. -/
def comps (pat : List (List Bool)) (H W : Nat) : List (List Nat) :=
  let fm := filledMasks pat H W
  (((List.range H).flatMap (fun y => (List.range W).map (fun x => (y, x)))).foldl
    (fun (st : List Nat × List (List Nat)) yx =>
      if testG fm yx.1 yx.2 && !testG st.1 yx.1 yx.2 then
        let comp := expandFix (H * W) fm (seedG H yx.1 yx.2)
        (orG st.1 comp, st.2 ++ [comp])
      else st)
    ((List.range H).map (fun _ => 0), [])).2

/-- The boundary, in the specification's sense, of one filled component:
its cells having an externally-reachable empty neighbour on some side,
tagged with that side. -/
def compBoundary (ext comp : List Nat) (H W : Nat) : List PF.EntryPoint :=
  (List.range H).flatMap (fun y =>
    (List.range W).flatMap (fun x =>
      if testG comp y x then
        PF.sideMap.filterMap (fun d =>
          let ny : Int := (y + 1 : Int) + d.1
          let nx : Int := (x + 1 : Int) + d.2.1
          if testG ext ny.toNat nx.toNat then
            some ⟨x, y, d.2.2⟩
          else none)
      else []))

/-- Number of 4-connected filled components of a part_003 character. -/
def charCompCount (c : Char) : Nat :=
  match Font3.lookup c with
  | none => 0
  | some pat =>
    if pat.length = 0 then 0
    else (comps pat pat.length ((pat.getD 0 []).length)).length

/-- The specification-side external boundary lists of a part_003 character:
one per filled component, empty boundaries dropped. -/
def specExternal (c : Char) : List (List PF.EntryPoint) :=
  match Font3.lookup c with
  | none => []
  | some pat =>
    if pat.length = 0 then []
    else
      let H := pat.length
      let W := (pat.getD 0 []).length
      let ext := extReach pat H W
      ((comps pat H W).map (fun comp => compBoundary ext comp H W)).filter
        (fun l => !l.isEmpty)

end Spec2

namespace FC

/-- Equality of entry lists as sets (order- and duplication-insensitive). -/
def eqAsSets (a b : List PF.EntryPoint) : Bool :=
  a.all (fun e => b.contains e) && b.all (fun e => a.contains e)

/-- Index-wise set comparison of two lists of entry lists. -/
def chkLists : List (List PF.EntryPoint) → List (List PF.EntryPoint) → Bool
  | [], [] => true
  | a :: xs, b :: ys => eqAsSets a b && chkLists xs ys
  | _, _ => false

/-- Per-character check of the per-component external boundaries of
part_003 against the specification-side boundaries. -/
def c2check (c : Char) : Bool :=
  chkLists (Font3.getCharacterBoundaries c).external (Spec2.specExternal c)

/-- Check that every listed boundary cell of a pixelFont.ts character is a
filled cell of its pattern. -/
def c4chk (pat : List (List Bool)) (b : Font.CharacterBoundaries) : Bool :=
  b.external.all (fun e => PF.gBool pat e.y e.x) &&
  b.internal.all (fun reg => reg.all (fun e => PF.gBool pat e.y e.x))

/-- The same check keyed by a font-table entry. -/
def c4check (ce : Char × List (List Bool)) : Bool :=
  c4chk ce.2 (Font.getCharacterBoundaries ce.1)

/-- The part_003 character set, for chunked evaluation. -/
def font3chars : List Char := ['A', 'B', 'C', 'D', 'E', 'F', 'G', 'H', 'I', 'J', 'K', 'L', 'M', 'N', 'O', 'P', 'Q', 'R', 'S', 'T', 'U', 'V', 'W', 'X', 'Y', 'Z', '0', '1', '2', '3', '4', '5', '6', '7', '8', '9', ' ', '.', ',', '!', '?', '\"', '\'', '-', ':', '♚', 'a', 'b', 'c', 'd', 'e', 'f', 'g', 'h', 'i', 'j', 'k', 'l', 'm', 'n', 'o', 'p', 'q', 'r', 's', 't', 'u', 'v', 'w', 'x', 'y', 'z']

end FC

namespace Ser

/-- Result record of deserializeMaze. -/
structure Deser where
  maze : MG.MazeData
  kingPos : MG.Position
  keyPos : MG.Position
  doorPos : MG.Position
deriving Repr, DecidableEq

/-- Lowercase hex digit (JS `Number.toString(16)`). -/
def hexDigit (n : Nat) : Char :=
  if n < 10 then Char.ofNat (48 + n) else Char.ofNat (87 + n)

/-- Two-digit hex encoding of a byte (`toString(16).padStart(2, '0')`). -/
def byteToHex (b : Nat) : List Char := [hexDigit (b / 16), hexDigit (b % 16)]

/-- Value of a hex digit character (`parseInt(_, 16)` on one digit). -/
def hexVal (c : Char) : Nat :=
  if 48 ≤ c.toNat ∧ c.toNat ≤ 57 then c.toNat - 48
  else if 97 ≤ c.toNat ∧ c.toNat ≤ 102 then c.toNat - 87
  else if 65 ≤ c.toNat ∧ c.toNat ≤ 70 then c.toNat - 55
  else 0

/-- `data.match(/.{1,2}/g).map(b => parseInt(b, 16))`: consecutive 2-char
chunks (a trailing single char forms a 1-digit chunk). -/
def hexPairs : List Char → List Nat
  | [] => []
  | [c] => [hexVal c]
  | a :: b :: r => (16 * hexVal a + hexVal b) :: hexPairs r

/-- `DataView.setUint16(off, v, false)`: big-endian 16-bit write. -/
def setU16 (buf : List Nat) (off v : Nat) : List Nat :=
  (buf.set off ((v % 65536) / 256)).set (off + 1) (v % 256)

/-- `DataView.getUint16(off, false)`: big-endian 16-bit read. -/
def getU16 (bytes : List Nat) (off : Nat) : Nat :=
  256 * bytes.getD off 0 + bytes.getD (off + 1) 0

/-- The 3-bit cell encoding `southWall<<2 | eastWall<<1 | isTextCell`. -/
def cellValue (c : MG.Cell) : Nat :=
  ((if c.southWall then 4 else 0) ||| (if c.eastWall then 2 else 0)) |||
    (if c.isTextCell then 1 else 0)

/-- JS shift count of `x << (5 - bitInByte)` / `x >> (5 - bitInByte)`:
the count is taken as `ToUint32(5 - bitInByte) & 31`, so a negative
`5 - bitInByte` becomes 31 (for 6) or 30 (for 7). -/
def jsShift (bitInByte : Nat) : Nat := (5 + 32 - bitInByte) % 32

/-- `byteArray[i] |= v` on a Uint8Array: OR then truncate to a byte. -/
def orWrite (buf : List Nat) (i v : Nat) : List Nat :=
  buf.set i ((buf.getD i 0 ||| v) % 256)

/-- Byte index written for cell `i` (`offset + floor(bitOffset / 8)` with
`offset = 16` and `bitOffset = 3 * i`). -/
def byteIdx (i : Nat) : Nat := 16 + 3 * i / 8

/-- The bit contribution of cell `i` of the maze (before byte truncation). -/
def contrib (m : MG.MazeData) (i : Nat) : Nat :=
  cellValue (MG.getCell m (i % m.width) (i / m.width)) <<< jsShift (3 * i % 8)

/-- The cell-packing double loop of serializeMaze: cell `i = y*width + x`
in row-major order, `byteArray[byteIndex] |= cellValue << (5 - bitInByte)`. -/
def packCellsLoop (m : MG.MazeData) (buf : List Nat) : List Nat :=
  (List.range (m.width * m.height)).foldl
    (fun buf i => orWrite buf (byteIdx i) (contrib m i)) buf

/-- serializeMaze from serialize.ts: 16-byte big-endian header (width,
height, king, key, door), then the 3-bit packed cells, hex-encoded. -/
def headerBuf (m : MG.MazeData) (kingP keyP doorP : MG.Position) : List Nat :=
  let cellBytes := (m.width * m.height * 3 + 7) / 8
  setU16 (setU16 (setU16 (setU16 (setU16 (setU16 (setU16 (setU16
    (List.replicate (16 + cellBytes) 0)
    0 m.width) 2 m.height) 4 kingP.x) 6 kingP.y)
    8 keyP.x) 10 keyP.y) 12 doorP.x) 14 doorP.y

/-- The full byte buffer of serializeMaze: header then packed cells. -/
def packedBytes (m : MG.MazeData) (kingP keyP doorP : MG.Position) :
    List Nat :=
  packCellsLoop m (headerBuf m kingP keyP doorP)

def serializeMaze (m : MG.MazeData) (kingP keyP doorP : MG.Position) :
    List Char :=
  (packedBytes m kingP keyP doorP).flatMap byteToHex

/-- The 3-bit extraction of deserializeMaze:
`(bytes[byteIndex] >> (5 - bitInByte)) & 0b111` with JS shift counts. -/
def readCellVal (bytes : List Nat) (i : Nat) : Nat :=
  (bytes.getD (byteIdx i) 0 >>> jsShift (3 * i % 8)) &&& 7

/-- deserializeMaze from serialize.ts (the reconstructed cells carry no
`isZkCell` field in the source; it reads back as false). -/
def deserializeMaze (data : List Char) : Deser :=
  let bytes := hexPairs data
  let width := getU16 bytes 0
  let height := getU16 bytes 2
  let cells := (List.range height).map (fun y =>
    (List.range width).map (fun x =>
      let v := readCellVal bytes (y * width + x)
      (⟨v &&& 4 != 0, v &&& 2 != 0, v &&& 1 != 0, false⟩ : MG.Cell)))
  { maze := ⟨width, height, cells⟩,
    kingPos := ⟨getU16 bytes 4, getU16 bytes 6⟩,
    keyPos := ⟨getU16 bytes 8, getU16 bytes 10⟩,
    doorPos := ⟨getU16 bytes 12, getU16 bytes 14⟩ }

/-- Fixture: a 3×1 maze whose third cell (index 2) has all three flags set. -/
def cxMaze : MG.MazeData :=
  ⟨3, 1, [[⟨true, true, true, false⟩, ⟨true, true, true, false⟩,
           ⟨true, true, true, false⟩]]⟩

end Ser

-- ===========================================================================
-- Theorems
-- ===========================================================================

namespace SR

theorem u32_lt (n : Nat) : u32 n < 4294967296 :=
  Nat.mod_lt _ (by norm_num)

theorem xor_lt_2_32 {a b : Nat} (ha : a < 4294967296) (hb : b < 4294967296) :
    a ^^^ b < 4294967296 := by
  have h : (4294967296 : Nat) = 2 ^ 32 := by norm_num
  rw [h] at ha hb ⊢
  exact Nat.xor_lt_two_pow ha hb

theorem nextStep_snd_lt (s0 : Nat) : (nextStep s0).2 < 4294967296 := by
  unfold nextStep
  have ht' : u32 ((u32 (s0 + 0x6D2B79F5) ^^^ (u32 (s0 + 0x6D2B79F5) >>> 15)) *
      (1 ||| u32 (s0 + 0x6D2B79F5))) < 4294967296 := u32_lt _
  dsimp only
  apply xor_lt_2_32
  · exact xor_lt_2_32 (u32_lt _) ht'
  · have hle : ∀ a k : Nat, a >>> k ≤ a := by
      intro a k
      rw [Nat.shiftRight_eq_div_pow]
      exact Nat.div_le_self _ _
    exact Nat.lt_of_le_of_lt (hle _ 14) (xor_lt_2_32 (u32_lt _) ht')

theorem nextVal_nonneg (s0 : Nat) : 0 ≤ nextVal s0 := by
  unfold nextVal
  positivity

theorem nextVal_lt_one (s0 : Nat) : nextVal s0 < 1 := by
  unfold nextVal
  rw [div_lt_one (by norm_num)]
  exact_mod_cast nextStep_snd_lt s0

end SR

namespace MG

theorem mod_succ_pred {y h : Nat} (hy : y < h) :
    ((y + 1) % h + h - 1) % h = y := by
  rcases Nat.lt_or_ge (y + 1) h with hlt | hge
  · rw [Nat.mod_eq_of_lt hlt]
    have h1 : y + 1 + h - 1 = y + h := by omega
    rw [h1, Nat.add_mod_right]
    exact Nat.mod_eq_of_lt hy
  · have hy1 : y + 1 = h := by omega
    rw [hy1, Nat.mod_self]
    have h2 : 0 + h - 1 = y := by omega
    rw [h2]
    exact Nat.mod_eq_of_lt hy

theorem mod_pred_succ {y h : Nat} (hy : y < h) :
    ((y + h - 1) % h + 1) % h = y := by
  rcases Nat.eq_zero_or_pos y with h0 | hpos
  · subst h0
    have h1 : 0 + h - 1 = h - 1 := by omega
    rw [h1, Nat.mod_eq_of_lt (show h - 1 < h by omega)]
    have h2 : h - 1 + 1 = h := by omega
    rw [h2, Nat.mod_self]
  · have h1 : (y + h - 1) % h = y - 1 := by
      have h2 : y + h - 1 = (y - 1) + h := by omega
      rw [h2, Nat.add_mod_right]
      exact Nat.mod_eq_of_lt (by omega)
    rw [h1]
    have h3 : y - 1 + 1 = y := by omega
    rw [h3]
    exact Nat.mod_eq_of_lt hy

end MG

/-- C9: for every internal 32-bit RNG state, `next()` returns a value in
`[0, 1)` that is an integer multiple of `2^(-32)`, and for all integers
`min ≤ max`, `nextInt(min, max) = floor(next() * (max - min + 1)) + min`
lies in the inclusive range `[min, max]`. -/
theorem C9_rng_ranges (s : Nat) (mn mx : ℤ) (_hs : s < 4294967296) (h : mn ≤ mx) :
    (0 ≤ SR.nextVal s ∧ SR.nextVal s < 1 ∧
      ∃ k : ℤ, SR.nextVal s = (k : ℚ) * (2 ^ 32 : ℚ)⁻¹) ∧
    (mn ≤ SR.nextInt s mn mx ∧ SR.nextInt s mn mx ≤ mx) := by
  clear _hs
  refine ⟨⟨SR.nextVal_nonneg s, SR.nextVal_lt_one s, ⟨((SR.nextStep s).2 : ℤ), ?_⟩⟩, ?_, ?_⟩
  · unfold SR.nextVal
    rw [div_eq_mul_inv]
    norm_num
  · unfold SR.nextInt
    have h0 : (0 : ℤ) ≤ ⌊SR.nextVal s * ((mx - mn + 1 : ℤ) : ℚ)⌋ := by
      rw [Int.le_floor]
      push_cast
      have := SR.nextVal_nonneg s
      have hR : (0 : ℚ) ≤ ((mx : ℚ) - mn + 1) := by
        have : (mn : ℚ) ≤ mx := by exact_mod_cast h
        linarith
      positivity
    linarith
  · unfold SR.nextInt
    have hR : (0 : ℚ) < ((mx - mn + 1 : ℤ) : ℚ) := by
      have : (0 : ℤ) < mx - mn + 1 := by omega
      exact_mod_cast this
    have hlt : SR.nextVal s * ((mx - mn + 1 : ℤ) : ℚ) < ((mx - mn + 1 : ℤ) : ℚ) := by
      have := SR.nextVal_lt_one s
      calc SR.nextVal s * ((mx - mn + 1 : ℤ) : ℚ)
          < 1 * ((mx - mn + 1 : ℤ) : ℚ) := by
            exact mul_lt_mul_of_pos_right this hR
        _ = ((mx - mn + 1 : ℤ) : ℚ) := one_mul _
    have hfl : ⌊SR.nextVal s * ((mx - mn + 1 : ℤ) : ℚ)⌋ < mx - mn + 1 := by
      rw [Int.floor_lt]
      exact_mod_cast hlt
    omega

/-- Witness for C9 at state 0 and range `[0, 1]`. -/
theorem C9_rng_ranges_witness :
    (0 : Nat) < 4294967296 ∧ (0 : ℤ) ≤ 1 ∧
      0 ≤ SR.nextInt 0 0 1 ∧ SR.nextInt 0 0 1 ≤ 1 :=
  ⟨by norm_num, by norm_num, (C9_rng_ranges 0 0 1 (by norm_num) (by norm_num)).2⟩

/-- C10: toroidal movement is reversible and wall checks agree from both
sides: for every `MazeData` whose cells array has `height` rows of `width`
cells (`width, height ≥ 1`), every in-bounds position `p` and every
direction `d` with opposite `d'`,
`getNewPosition (getNewPosition p d) d' = p` and
`canMove p d = canMove (getNewPosition p d) d'`. -/
theorem C10_move_reversible (m : MG.MazeData) (p : MG.Position) (d : MG.Direction)
    (_hrows : m.cells.length = m.height)
    (_hcols : ∀ row ∈ m.cells, row.length = m.width)
    (hx : p.x < m.width) (hy : p.y < m.height) :
    MG.getNewPosition m (MG.getNewPosition m p d) d.opposite = p ∧
    MG.canMove m p d = MG.canMove m (MG.getNewPosition m p d) d.opposite := by
  clear _hrows _hcols
  obtain ⟨x, y⟩ := p
  simp only at hx hy
  cases d
  case up =>
    constructor
    · simp only [MG.getNewPosition, MG.Direction.opposite, MG.Position.mk.injEq]
      exact ⟨trivial, MG.mod_pred_succ hy⟩
    · simp only [MG.canMove, MG.getNewPosition, MG.Direction.opposite]
  case down =>
    constructor
    · simp only [MG.getNewPosition, MG.Direction.opposite, MG.Position.mk.injEq]
      exact ⟨trivial, MG.mod_succ_pred hy⟩
    · simp only [MG.canMove, MG.getNewPosition, MG.Direction.opposite]
      rw [MG.mod_succ_pred hy]
  case left =>
    constructor
    · simp only [MG.getNewPosition, MG.Direction.opposite, MG.Position.mk.injEq]
      exact ⟨MG.mod_pred_succ hx, trivial⟩
    · simp only [MG.canMove, MG.getNewPosition, MG.Direction.opposite]
  case right =>
    constructor
    · simp only [MG.getNewPosition, MG.Direction.opposite, MG.Position.mk.injEq]
      exact ⟨MG.mod_succ_pred hx, trivial⟩
    · simp only [MG.canMove, MG.getNewPosition, MG.Direction.opposite]
      rw [MG.mod_succ_pred hx]

/-- Witness for C10 on a concrete 2×1 maze at position (0,0), direction right. -/
theorem C10_move_reversible_witness :
    MG.witMaze21.cells.length = MG.witMaze21.height ∧
    (∀ row ∈ MG.witMaze21.cells, row.length = MG.witMaze21.width) ∧
    (0 : Nat) < MG.witMaze21.width ∧ (0 : Nat) < MG.witMaze21.height ∧
    (MG.getNewPosition MG.witMaze21
        (MG.getNewPosition MG.witMaze21 ⟨0, 0⟩ MG.Direction.right)
        (MG.Direction.opposite MG.Direction.right) = ⟨0, 0⟩ ∧
      MG.canMove MG.witMaze21 ⟨0, 0⟩ MG.Direction.right =
        MG.canMove MG.witMaze21
          (MG.getNewPosition MG.witMaze21 ⟨0, 0⟩ MG.Direction.right)
          (MG.Direction.opposite MG.Direction.right)) :=
  ⟨by decide, by decide, by decide, by decide,
    C10_move_reversible MG.witMaze21 ⟨0, 0⟩ MG.Direction.right
      rfl (by decide) (by decide) (by decide)⟩


namespace Zk

theorem packPairs_length (l : List Nat) : (packPairs l).length = (l.length + 1) / 2 := by
  induction l using packPairs.induct
  case case1 => simp [packPairs]
  case case2 => simp [packPairs, packCells]
  case case3 a b rest ih =>
    simp only [packPairs, List.length_cons, ih]
    omega

theorem serializeForZk_packed_length (m : ZMazeData) (s k g : MG.Position) :
    (serializeForZk m s k g).packedCells.length =
      ((serializeForZk m s k g).width * (serializeForZk m s k g).height + 1) / 2 := by
  simp only [serializeForZk, packPairs_length, List.length_flatMap, List.length_map]
  have h : ∀ (f : Nat → Nat) (c : Nat), (∀ y, f y = c) →
      ∀ n : Nat, ((List.range n).map f).sum = n * c := by
    intro f c hf n
    induction n with
    | zero => simp
    | succ n ih =>
      rw [List.range_succ, List.map_append, List.sum_append, ih]
      simp [hf, Nat.succ_mul]
  rw [h (List.length ∘ fun y =>
        List.map (fun x => encodeCell (getZCell m x y)) (List.range m.width))
      m.width (fun y => by simp) m.height, Nat.mul_comm]

end Zk

/-- C8: `generateProverInput(zkMaze, solutionMoves)` returns an error if and
only if `zkMaze.width * zkMaze.height > 2500` (MAX_CELLS) or
`solutionMoves.length > 3000` (MAX_MOVES); otherwise it returns a
ProverInput whose `packed_cells` is the packed cells padded with zeros to
exactly 1250 entries, whose `moves` is the encoded moves padded with zeros
to exactly 3000 entries, and whose `move_count` equals
`solutionMoves.length`.  The packed-cells length hypothesis is what
`serializeForZk` guarantees (its own conjunct restates that). -/
theorem C8_prover_input_limits (zkMaze : Zk.ZkMazeData) (moves : List Zk.Move)
    (hpack : zkMaze.packedCells.length = (zkMaze.width * zkMaze.height + 1) / 2) :
    ((∃ e, Zk.generateProverInput zkMaze moves = .error e) ↔
      (zkMaze.width * zkMaze.height > 2500 ∨ moves.length > 3000)) ∧
    (∀ pi, Zk.generateProverInput zkMaze moves = .ok pi →
      pi.packed_cells.length = 1250 ∧
      pi.packed_cells =
        zkMaze.packedCells ++ List.replicate (1250 - zkMaze.packedCells.length) 0 ∧
      pi.moves.length = 3000 ∧
      pi.moves = moves.map Zk.moveToDirection ++
        List.replicate (3000 - moves.length) 0 ∧
      pi.move_count = moves.length) ∧
    (∀ (m : Zk.ZMazeData) (s k g : MG.Position),
      (Zk.serializeForZk m s k g).packedCells.length =
        ((Zk.serializeForZk m s k g).width * (Zk.serializeForZk m s k g).height + 1) / 2) := by
  refine ⟨?_, ?_, fun m s k g => Zk.serializeForZk_packed_length m s k g⟩
  · unfold Zk.generateProverInput
    dsimp only
    constructor
    · intro ⟨e, he⟩
      by_cases h1 : zkMaze.width * zkMaze.height > Zk.MAX_CELLS
      · exact Or.inl h1
      · by_cases h2 : moves.length > Zk.MAX_MOVES
        · exact Or.inr h2
        · rw [if_neg h1, if_neg h2] at he
          exact absurd he (by simp)
    · intro h
      by_cases h1 : zkMaze.width * zkMaze.height > Zk.MAX_CELLS
      · exact ⟨_, by rw [if_pos h1]⟩
      · have h2 : moves.length > Zk.MAX_MOVES := by
          rcases h with h | h
          · exact absurd h h1
          · exact h
        exact ⟨_, by rw [if_neg h1, if_pos h2]⟩
  · intro pi hpi
    unfold Zk.generateProverInput at hpi
    dsimp only at hpi
    by_cases h1 : zkMaze.width * zkMaze.height > Zk.MAX_CELLS
    · rw [if_pos h1] at hpi
      exact absurd hpi (by simp)
    · by_cases h2 : moves.length > Zk.MAX_MOVES
      · rw [if_neg h1, if_pos h2] at hpi
        exact absurd hpi (by simp)
      · rw [if_neg h1, if_neg h2] at hpi
        injection hpi with hpi
        subst hpi
        have hlen : zkMaze.packedCells.length ≤ 1250 := by
          rw [hpack]
          have : zkMaze.width * zkMaze.height ≤ Zk.MAX_CELLS := by omega
          unfold Zk.MAX_CELLS at this
          omega
        have hmlen : moves.length ≤ 3000 := by
          unfold Zk.MAX_MOVES at h2
          omega
        refine ⟨?_, rfl, ?_, ?_, rfl⟩
        · simp only [Zk.padZeros, List.length_append, List.length_replicate]
          unfold Zk.MAX_PACKED_BYTES
          omega
        · simp only [Zk.padZeros, Zk.serializeMovesZk, List.length_append,
            List.length_replicate, List.length_map]
          unfold Zk.MAX_MOVES
          omega
        · simp only [Zk.padZeros, Zk.serializeMovesZk, List.length_map]
          rfl

/-- Witness for C8 on a 1×1 maze record with one packed byte and one move. -/
theorem C8_prover_input_limits_witness :
    Zk.witZkMaze.packedCells.length =
      (Zk.witZkMaze.width * Zk.witZkMaze.height + 1) / 2 ∧
    ((∃ e, Zk.generateProverInput Zk.witZkMaze [Zk.Move.up] = .error e) ↔
      (Zk.witZkMaze.width * Zk.witZkMaze.height > 2500 ∨
        ([Zk.Move.up] : List Zk.Move).length > 3000)) :=
  ⟨by decide, (C8_prover_input_limits Zk.witZkMaze [Zk.Move.up] (by decide)).1⟩


namespace MG

theorem getD_set_self {α : Type} {l : List α} {i : Nat} {a d : α} (h : i < l.length) :
    (l.set i a).getD i d = a := by
  simp [List.getD_eq_getElem?_getD, List.getElem?_set_self', List.getElem?_eq_getElem h]

theorem getD_set_ne {α : Type} {l : List α} {i j : Nat} {a d : α} (h : i ≠ j) :
    (l.set i a).getD j d = l.getD j d := by
  simp [List.getD_eq_getElem?_getD, List.getElem?_set_ne h]

theorem modCell_length (g : List (List Cell)) (a b : Nat) (f : Cell → Cell) :
    (modCell g a b f).length = g.length := by
  simp [modCell]

theorem modCell_row_length (g : List (List Cell)) (a b j : Nat) (f : Cell → Cell) :
    ((modCell g a b f).getD j []).length = (g.getD j []).length := by
  unfold modCell
  by_cases hbj : b = j
  · subst hbj
    rcases Nat.lt_or_ge b g.length with hb | hb
    · rw [getD_set_self hb]
      simp
    · rw [List.set_eq_of_length_le hb]
  · rw [getD_set_ne hbj]

theorem gridCell_modCell_self {g : List (List Cell)} {x y : Nat} {f : Cell → Cell}
    (hy : y < g.length) (hx : x < (g.getD y []).length) :
    gridCell (modCell g x y f) x y = f (gridCell g x y) := by
  unfold gridCell modCell
  rw [getD_set_self hy, getD_set_self hx]

theorem gridCell_modCell_ne {g : List (List Cell)} {a b x y : Nat} {f : Cell → Cell}
    (h : ¬(a = x ∧ b = y)) :
    gridCell (modCell g a b f) x y = gridCell g x y := by
  unfold gridCell modCell
  by_cases hby : b = y
  · subst hby
    have hax : a ≠ x := fun hax => h ⟨hax, rfl⟩
    rcases Nat.lt_or_ge b g.length with hb | hb
    · rw [getD_set_self hb, getD_set_ne hax]
    · rw [List.set_eq_of_length_le hb]
  · rw [getD_set_ne hby]

theorem boundaryStep_length (w h : Nat) (g : List (List Cell)) (a b : Nat) :
    (boundaryStep w h g a b).length = g.length := by
  unfold boundaryStep
  dsimp only
  split <;> split <;> split <;> simp only [modCell_length]

theorem boundaryStep_row_length (w h : Nat) (g : List (List Cell)) (a b j : Nat) :
    ((boundaryStep w h g a b).getD j []).length = (g.getD j []).length := by
  unfold boundaryStep
  dsimp only
  split <;> split <;> split <;> simp only [modCell_row_length]

theorem boundaryStep_at_other (w h : Nat) (g : List (List Cell)) (a b x y : Nat)
    (hne : ¬(a = x ∧ b = y)) :
    gridCell (boundaryStep w h g a b) x y = gridCell g x y := by
  unfold boundaryStep
  dsimp only
  split <;> split <;> split <;>
    simp only [gridCell_modCell_ne hne]

theorem boundaryStep_at_self (w h : Nat) (g : List (List Cell)) (x y : Nat)
    (hy : y < g.length) (hx : x < (g.getD y []).length) :
    (gridCell (boundaryStep w h g x y) x y).southWall =
      ((gridCell g x y).southWall ||
        ((gridCell g x y).isTextCell != (gridCell g x ((y + 1) % h)).isTextCell)) ∧
    (gridCell (boundaryStep w h g x y) x y).eastWall =
      ((gridCell g x y).eastWall ||
        ((gridCell g x y).isTextCell != (gridCell g ((x + 1) % w) y).isTextCell)) ∧
    (gridCell (boundaryStep w h g x y) x y).isTextCell = (gridCell g x y).isTextCell ∧
    (gridCell (boundaryStep w h g x y) x y).isZkCell = (gridCell g x y).isZkCell := by
  have hy1 : y < (modCell g x y (fun c => { c with southWall := true })).length := by
    rw [modCell_length]; exact hy
  have hx1 : x < ((modCell g x y (fun c => { c with southWall := true })).getD y []).length := by
    rw [modCell_row_length]; exact hx
  unfold boundaryStep
  dsimp only
  cases hc : (gridCell g x y).isTextCell <;>
    cases hs : (gridCell g x ((y + 1) % h)).isTextCell <;>
    cases he : (gridCell g ((x + 1) % w) y).isTextCell <;>
    simp only [hc, hs, he, Bool.not_true, Bool.not_false, if_true, if_false,
      Bool.false_eq_true, Bool.true_eq_false, ite_true, ite_false,
      gridCell_modCell_self hy hx, gridCell_modCell_self hy1 hx1, hc] <;>
    simp [gridCell_modCell_self hy hx, hc]

theorem boundaryStep_text_all (w h : Nat) (g : List (List Cell)) (a b x y : Nat)
    (hb : b < g.length) (ha : a < (g.getD b []).length) :
    (gridCell (boundaryStep w h g a b) x y).isTextCell = (gridCell g x y).isTextCell ∧
    (gridCell (boundaryStep w h g a b) x y).isZkCell = (gridCell g x y).isZkCell := by
  by_cases hxy : a = x ∧ b = y
  · obtain ⟨hax, hby⟩ := hxy
    subst hax
    subst hby
    have := boundaryStep_at_self w h g a b hb ha
    exact ⟨this.2.2.1, this.2.2.2⟩
  · rw [boundaryStep_at_other w h g a b x y hxy]
    exact ⟨rfl, rfl⟩

theorem boundaryGo_nil (w h : Nat) (g : List (List Cell)) :
    boundaryGo w h g [] = g := rfl

theorem boundaryGo_cons (w h : Nat) (g : List (List Cell)) (p : Nat × Nat)
    (l : List (Nat × Nat)) :
    boundaryGo w h g (p :: l) = boundaryGo w h (boundaryStep w h g p.1 p.2) l := rfl

theorem boundaryGo_length (w h : Nat) (l : List (Nat × Nat)) (g : List (List Cell)) :
    (boundaryGo w h g l).length = g.length := by
  induction l generalizing g with
  | nil => rfl
  | cons p l ih => rw [boundaryGo_cons, ih, boundaryStep_length]

theorem boundaryGo_row_length (w h : Nat) (l : List (Nat × Nat)) (g : List (List Cell))
    (j : Nat) :
    ((boundaryGo w h g l).getD j []).length = (g.getD j []).length := by
  induction l generalizing g with
  | nil => rfl
  | cons p l ih => rw [boundaryGo_cons, ih, boundaryStep_row_length]

theorem boundaryGo_text_all (w h : Nat) (l : List (Nat × Nat)) (g : List (List Cell))
    (hl : ∀ p ∈ l, p.2 < g.length ∧ p.1 < (g.getD p.2 []).length) (x y : Nat) :
    (gridCell (boundaryGo w h g l) x y).isTextCell = (gridCell g x y).isTextCell ∧
    (gridCell (boundaryGo w h g l) x y).isZkCell = (gridCell g x y).isZkCell := by
  induction l generalizing g with
  | nil => exact ⟨rfl, rfl⟩
  | cons p l ih =>
    rw [boundaryGo_cons]
    obtain ⟨hb, ha⟩ := hl p (List.mem_cons_self p l)
    have hl' : ∀ q ∈ l, q.2 < (boundaryStep w h g p.1 p.2).length ∧
        q.1 < ((boundaryStep w h g p.1 p.2).getD q.2 []).length := by
      intro q hq
      rw [boundaryStep_length, boundaryStep_row_length]
      exact hl q (List.mem_cons_of_mem p hq)
    have h1 := ih (boundaryStep w h g p.1 p.2) hl'
    have h2 := boundaryStep_text_all w h g p.1 p.2 x y hb ha
    exact ⟨h1.1.trans h2.1, h1.2.trans h2.2⟩

theorem boundaryGo_not_mem (w h : Nat) (l : List (Nat × Nat)) (g : List (List Cell))
    (x y : Nat) (hxy : (x, y) ∉ l) :
    gridCell (boundaryGo w h g l) x y = gridCell g x y := by
  induction l generalizing g with
  | nil => rfl
  | cons p l ih =>
    obtain ⟨pa, pb⟩ := p
    rw [boundaryGo_cons]
    have hp : ¬(pa = x ∧ pb = y) := by
      rintro ⟨h1, h2⟩
      subst h1
      subst h2
      exact hxy (List.mem_cons_self _ _)
    rw [ih _ (fun hm => hxy (List.mem_cons_of_mem _ hm)),
      boundaryStep_at_other w h g pa pb x y hp]

theorem boundaryGo_mem (w h : Nat) (l : List (Nat × Nat)) (g : List (List Cell))
    (hl : ∀ p ∈ l, p.2 < g.length ∧ p.1 < (g.getD p.2 []).length)
    (hnd : l.Nodup) (x y : Nat) (hxy : (x, y) ∈ l) :
    (gridCell (boundaryGo w h g l) x y).southWall =
      ((gridCell g x y).southWall ||
        ((gridCell g x y).isTextCell != (gridCell g x ((y + 1) % h)).isTextCell)) ∧
    (gridCell (boundaryGo w h g l) x y).eastWall =
      ((gridCell g x y).eastWall ||
        ((gridCell g x y).isTextCell != (gridCell g ((x + 1) % w) y).isTextCell)) ∧
    (gridCell (boundaryGo w h g l) x y).isTextCell = (gridCell g x y).isTextCell ∧
    (gridCell (boundaryGo w h g l) x y).isZkCell = (gridCell g x y).isZkCell := by
  induction l generalizing g with
  | nil => cases hxy
  | cons p l ih =>
    obtain ⟨pa, pb⟩ := p
    rw [boundaryGo_cons]
    obtain ⟨hb, ha⟩ := hl (pa, pb) (List.mem_cons_self _ _)
    have hl' : ∀ q ∈ l, q.2 < (boundaryStep w h g pa pb).length ∧
        q.1 < ((boundaryStep w h g pa pb).getD q.2 []).length := by
      intro q hq
      rw [boundaryStep_length, boundaryStep_row_length]
      exact hl q (List.mem_cons_of_mem _ hq)
    by_cases hp : pa = x ∧ pb = y
    · obtain ⟨hp1, hp2⟩ := hp
      subst hp1
      subst hp2
      have hnotmem : (pa, pb) ∉ l := (List.nodup_cons.mp hnd).1
      rw [boundaryGo_not_mem w h l _ pa pb hnotmem]
      exact boundaryStep_at_self w h g pa pb hb ha
    · have hxyl : (x, y) ∈ l := by
        rcases List.mem_cons.mp hxy with h1 | h1
        · rw [Prod.mk.injEq] at h1
          exact absurd ⟨h1.1.symm, h1.2.symm⟩ hp
        · exact h1
      have ih1 := ih (boundaryStep w h g pa pb) hl' (List.nodup_cons.mp hnd).2 hxyl
      rw [boundaryStep_at_other w h g pa pb x y hp] at ih1
      have ht1 := boundaryStep_text_all w h g pa pb x ((y + 1) % h) hb ha
      have ht2 := boundaryStep_text_all w h g pa pb ((x + 1) % w) y hb ha
      rw [ht1.1, ht2.1] at ih1
      exact ih1

theorem mem_rowMajor {w h x y : Nat} : (x, y) ∈ rowMajor w h ↔ x < w ∧ y < h := by
  simp only [rowMajor, List.mem_flatMap, List.mem_map, List.mem_range, Prod.mk.injEq]
  constructor
  · intro ⟨b, hb, a, ha, hax, hby⟩
    subst hax
    subst hby
    exact ⟨ha, hb⟩
  · intro ⟨hx, hy⟩
    exact ⟨y, hy, x, hx, rfl, rfl⟩

theorem nodup_rowMajor (w h : Nat) : (rowMajor w h).Nodup := by
  unfold rowMajor
  have hgen : ∀ ys : List Nat, ys.Nodup →
      (ys.flatMap (fun y => (List.range w).map (fun x => (x, y)))).Nodup := by
    intro ys hys
    induction ys with
    | nil => simp
    | cons b ys ih =>
      simp only [List.flatMap_cons]
      apply List.Nodup.append
      · exact List.Nodup.map (fun a a' hh => by simpa using hh) (List.nodup_range _)
      · exact ih (List.nodup_cons.mp hys).2
      · intro p hp1 hp2
        simp only [List.mem_map, List.mem_range] at hp1
        obtain ⟨a, _, hpa⟩ := hp1
        simp only [List.mem_flatMap, List.mem_map, List.mem_range] at hp2
        obtain ⟨b', hb', a', _, hpa'⟩ := hp2
        have h1 : p.2 = b := by rw [← hpa]
        have h2 : p.2 = b' := by rw [← hpa']
        exact (List.nodup_cons.mp hys).1 (h1 ▸ h2 ▸ hb')
  exact hgen (List.range h) (List.nodup_range _)

end MG

/-- C5: the boundary-wall assertion phase closes the wall on every
toroidally-adjacent pair of cells of which exactly one is a text cell (in
both directions), and modifies no other wall: pointwise, the new south
(resp. east) wall of `(x, y)` is the old wall OR-ed with the Boolean
disagreement of `isTextCell` across that wall, and the text/zk flags are
untouched; walls between two text cells or two non-text cells keep their
previous state (the OR with `false`). -/
theorem C5_boundary_walls (m : MG.MazeData) (x y : Nat)
    (hrows : m.cells.length = m.height)
    (hcols : ∀ row ∈ m.cells, row.length = m.width)
    (hx : x < m.width) (hy : y < m.height) :
    (MG.getCell (MG.createLetterBoundaryWalls m) x y).southWall =
      ((MG.getCell m x y).southWall ||
        ((MG.getCell m x y).isTextCell !=
          (MG.getCell m x ((y + 1) % m.height)).isTextCell)) ∧
    (MG.getCell (MG.createLetterBoundaryWalls m) x y).eastWall =
      ((MG.getCell m x y).eastWall ||
        ((MG.getCell m x y).isTextCell !=
          (MG.getCell m ((x + 1) % m.width) y).isTextCell)) ∧
    (MG.getCell (MG.createLetterBoundaryWalls m) x y).isTextCell =
      (MG.getCell m x y).isTextCell ∧
    (MG.getCell (MG.createLetterBoundaryWalls m) x y).isZkCell =
      (MG.getCell m x y).isZkCell ∧
    (MG.createLetterBoundaryWalls m).width = m.width ∧
    (MG.createLetterBoundaryWalls m).height = m.height := by
  have hrowlen : ∀ j, j < m.height → ((m.cells.getD j []).length = m.width) := by
    intro j hj
    have hj' : j < m.cells.length := by rw [hrows]; exact hj
    have hmem : m.cells.getD j [] ∈ m.cells := by
      rw [List.getD_eq_getElem?_getD, List.getElem?_eq_getElem hj']
      exact List.getElem_mem hj'
    exact hcols _ hmem
  have hl : ∀ p ∈ MG.rowMajor m.width m.height,
      p.2 < m.cells.length ∧ p.1 < (m.cells.getD p.2 []).length := by
    intro p hp
    obtain ⟨pa, pb⟩ := p
    obtain ⟨hpx, hpy⟩ := MG.mem_rowMajor.mp hp
    constructor
    · rw [hrows]; exact hpy
    · rw [hrowlen pb hpy]; exact hpx
  have hmem : (x, y) ∈ MG.rowMajor m.width m.height := MG.mem_rowMajor.mpr ⟨hx, hy⟩
  have hmain := MG.boundaryGo_mem m.width m.height (MG.rowMajor m.width m.height)
    m.cells hl (MG.nodup_rowMajor m.width m.height) x y hmem
  exact ⟨hmain.1, hmain.2.1, hmain.2.2.1, hmain.2.2.2, rfl, rfl⟩

/-- Witness for C5 on a concrete 2×2 maze with one text cell, at (0, 0). -/
theorem C5_boundary_walls_witness :
    MG.witMaze22.cells.length = MG.witMaze22.height ∧
    (∀ row ∈ MG.witMaze22.cells, row.length = MG.witMaze22.width) ∧
    0 < MG.witMaze22.width ∧ 0 < MG.witMaze22.height ∧
    (MG.getCell (MG.createLetterBoundaryWalls MG.witMaze22) 0 0).southWall =
      ((MG.getCell MG.witMaze22 0 0).southWall ||
        ((MG.getCell MG.witMaze22 0 0).isTextCell !=
          (MG.getCell MG.witMaze22 0 ((0 + 1) % MG.witMaze22.height)).isTextCell)) :=
  ⟨rfl, by decide, by decide, by decide,
    (C5_boundary_walls MG.witMaze22 0 0 rfl (by decide) (by decide) (by decide)).1⟩


namespace FC

theorem contains_iff_mem (l : List PF.EntryPoint) (e : PF.EntryPoint) :
    l.contains e = true ↔ e ∈ l := by
  rw [List.contains_iff_exists_mem_beq]
  constructor
  · rintro ⟨b, hb, hbeq⟩
    rw [eq_of_beq hbeq]
    exact hb
  · intro he
    exact ⟨e, he, by simp⟩

theorem eqAsSets_iff (a b : List PF.EntryPoint) :
    eqAsSets a b = true ↔ a.toFinset = b.toFinset := by
  simp only [eqAsSets, Bool.and_eq_true, List.all_eq_true, contains_iff_mem,
    Finset.ext_iff, List.mem_toFinset]
  constructor
  · intro ⟨h1, h2⟩ e
    exact ⟨fun he => h1 e he, fun he => h2 e he⟩
  · intro h
    exact ⟨fun e he => (h e).mp he, fun e he => (h e).mpr he⟩

theorem chkLists_spec (A B : List (List PF.EntryPoint)) (h : chkLists A B = true) :
    A.length = B.length ∧
    ∀ j < B.length, (A.getD j []).toFinset = (B.getD j []).toFinset := by
  induction A generalizing B with
  | nil =>
    cases B with
    | nil => exact ⟨rfl, fun j hj => absurd hj (by simp)⟩
    | cons b bs => exact absurd h (by simp [chkLists])
  | cons a xs ih =>
    cases B with
    | nil => exact absurd h (by simp [chkLists])
    | cons b ys =>
      rw [show chkLists (a :: xs) (b :: ys) = (eqAsSets a b && chkLists xs ys) from rfl,
        Bool.and_eq_true] at h
      obtain ⟨h1, h2⟩ := h
      obtain ⟨hl, hj⟩ := ih ys h2
      refine ⟨by simp [hl], fun j hjlt => ?_⟩
      cases j with
      | zero => exact (eqAsSets_iff a b).mp h1
      | succ j => exact hj j (by simpa using hjlt)

theorem c4check_spec (ce : Char × List (List Bool)) (h : c4check ce = true) :
    (∀ e ∈ (Font.getCharacterBoundaries ce.1).external, PF.gBool ce.2 e.y e.x = true) ∧
    (∀ reg ∈ (Font.getCharacterBoundaries ce.1).internal,
      ∀ e ∈ reg, PF.gBool ce.2 e.y e.x = true) := by
  unfold c4check c4chk at h
  rw [Bool.and_eq_true] at h
  exact ⟨fun e he => List.all_eq_true.mp h.1 e he,
    fun reg hreg e he => List.all_eq_true.mp (List.all_eq_true.mp h.2 reg hreg) e he⟩

end FC

set_option maxRecDepth 40000 in
theorem c2chunk0 : (['A', 'B', 'C', 'D', 'E', 'F'] : List Char).all FC.c2check = true := by decide

set_option maxRecDepth 40000 in
theorem c2chunk1 : (['G', 'H', 'I', 'J', 'K', 'L'] : List Char).all FC.c2check = true := by decide

set_option maxRecDepth 40000 in
theorem c2chunk2 : (['M', 'N', 'O', 'P', 'Q', 'R'] : List Char).all FC.c2check = true := by decide

set_option maxRecDepth 40000 in
theorem c2chunk3 : (['S', 'T', 'U', 'V', 'W', 'X'] : List Char).all FC.c2check = true := by decide

set_option maxRecDepth 40000 in
theorem c2chunk4 : (['Y', 'Z', '0', '1', '2', '3'] : List Char).all FC.c2check = true := by decide

set_option maxRecDepth 40000 in
theorem c2chunk5 : (['4', '5', '6', '7', '8', '9'] : List Char).all FC.c2check = true := by decide

set_option maxRecDepth 40000 in
theorem c2chunk6 : ([' ', '.', ',', '!', '?', '\"'] : List Char).all FC.c2check = true := by decide

set_option maxRecDepth 40000 in
theorem c2chunk7 : (['\'', '-', ':', '♚', 'a', 'b'] : List Char).all FC.c2check = true := by decide

set_option maxRecDepth 40000 in
theorem c2chunk8 : (['c', 'd', 'e', 'f', 'g', 'h'] : List Char).all FC.c2check = true := by decide

set_option maxRecDepth 40000 in
theorem c2chunk9 : (['i', 'j', 'k', 'l', 'm', 'n'] : List Char).all FC.c2check = true := by decide

set_option maxRecDepth 40000 in
theorem c2chunk10 : (['o', 'p', 'q', 'r', 's', 't'] : List Char).all FC.c2check = true := by decide

set_option maxRecDepth 40000 in
theorem c2chunk11 : (['u', 'v', 'w', 'x', 'y', 'z'] : List Char).all FC.c2check = true := by decide

set_option maxRecDepth 40000 in
theorem c4chunk0 : ([
  ('A', PF.p [".###.", "##.##", "#...#", "#...#", "#####", "#...#", "#...#", "#...#"]),
  ('B', PF.p ["#####", "#...#", "#..##", "####.", "#..##", "#...#", "#...#", "#####"]),
  ('C', PF.p [".###.", "##...", "#....", "#....", "#....", "#....", "##...", ".###."]),
  ('D', PF.p ["####.", "#..##", "#...#", "#...#", "#...#", "#...#", "#..##", "####."]),
  ('E', PF.p ["#####", "#....", "#....", "####.", "#....", "#....", "#....", "#####"]),
  ('F', PF.p ["#####", "#....", "#....", "####.", "#....", "#....", "#....", "#...."])] : List (Char × List (List Bool))).all FC.c4check = true := by decide

set_option maxRecDepth 40000 in
theorem c4chunk1 : ([
  ('G', PF.p [".####", "##...", "#....", "#....", "#.###", "#...#", "#..##", "####."]),
  ('H', PF.p ["#...#", "#...#", "#...#", "#####", "#...#", "#...#", "#...#", "#...#"]),
  ('I', PF.p ["#####", "..#..", "..#..", "..#..", "..#..", "..#..", "..#..", "#####"]),
  ('J', PF.p ["#####", "....#", "....#", "....#", "....#", "#...#", "##.##", ".###."]),
  ('K', PF.p ["#...#", "#..##", "#.##.", "###..", "###..", "#.##.", "#..##", "#...#"]),
  ('L', PF.p ["#....", "#....", "#....", "#....", "#....", "#....", "#....", "#####"])] : List (Char × List (List Bool))).all FC.c4check = true := by decide

set_option maxRecDepth 40000 in
theorem c4chunk2 : ([
  ('M', PF.p ["#...#", "##.##", "#####", "#.#.#", "#.#.#", "#...#", "#...#", "#...#"]),
  ('N', PF.p ["#...#", "##..#", "###.#", "#.#.#", "#.#.#", "#.###", "#..##", "#...#"]),
  ('O', PF.p [".###.", "##.##", "#...#", "#...#", "#...#", "#...#", "##.##", ".###."]),
  ('P', PF.p ["#####", "#...#", "#...#", "#..##", "####.", "#....", "#....", "#...."]),
  ('Q', PF.p [".###.", "##.##", "#...#", "#...#", "#.#.#", "#.###", "##.##", ".####"]),
  ('R', PF.p ["#####", "#...#", "#...#", "####.", "###..", "#.##.", "#..##", "#...#"])] : List (Char × List (List Bool))).all FC.c4check = true := by decide

set_option maxRecDepth 40000 in
theorem c4chunk3 : ([
  ('S', PF.p ["#####", "#....", "##...", ".####", "....#", "....#", "#...#", "#####"]),
  ('T', PF.p ["#####", "..#..", "..#..", "..#..", "..#..", "..#..", "..#..", "..#.."]),
  ('U', PF.p ["#...#", "#...#", "#...#", "#...#", "#...#", "#...#", "##.##", ".###."]),
  ('V', PF.p ["#...#", "#...#", "#...#", "#...#", "#...#", "##.##", ".###.", "..#.."]),
  ('W', PF.p ["#...#", "#...#", "#...#", "#.#.#", "#.#.#", "#.#.#", "#####", ".#.#."]),
  ('X', PF.p ["#...#", "##.##", ".###.", "..#..", "..#..", ".###.", "##.##", "#...#"])] : List (Char × List (List Bool))).all FC.c4check = true := by decide

set_option maxRecDepth 40000 in
theorem c4chunk4 : ([
  ('Y', PF.p ["#...#", "#...#", "##.##", ".###.", "..#..", "..#..", "..#..", "..#.."]),
  ('Z', PF.p ["#####", "....#", "...##", "..##.", ".##..", "##...", "#....", "#####"]),
  ('0', PF.p [".###.", "##.##", "#...#", "#.#.#", "#.#.#", "#...#", "##.##", ".###."]),
  ('1', PF.p ["..#..", ".##..", "..#..", "..#..", "..#..", "..#..", "..#..", "#####"]),
  ('2', PF.p [".###.", "##.##", "....#", "..###", ".##..", "##...", "#....", "#####"]),
  ('3', PF.p [".###.", "##.##", "....#", "..###", "....#", "....#", "##.##", ".###."])] : List (Char × List (List Bool))).all FC.c4check = true := by decide

set_option maxRecDepth 40000 in
theorem c4chunk5 : ([
  ('4', PF.p ["#...#", "#...#", "#...#", "#####", "....#", "....#", "....#", "....#"]),
  ('5', PF.p ["#####", "#....", "#....", "#####", "....#", "....#", "##.##", ".###."]),
  ('6', PF.p [".####", "##..#", "#....", "####.", "#..##", "#...#", "##.##", ".###."]),
  ('7', PF.p ["#####", "....#", "....#", "...##", "..##.", "..#..", "..#..", "..#.."]),
  ('8', PF.p [".###.", "##.##", "#...#", "##.##", "#####", "#...#", "##.##", ".###."]),
  ('9', PF.p [".###.", "##.##", "#...#", "##.##", ".####", "....#", "#..##", "####."])] : List (Char × List (List Bool))).all FC.c4check = true := by decide

set_option maxRecDepth 40000 in
theorem c4chunk6 : ([
  (' ', PF.p ["...", "...", "...", "...", "...", "...", "...", "..."]),
  ('.', PF.p ["..", "..", "..", "..", "..", "..", "##", "##"]),
  (',', PF.p ["..", "..", "..", "..", "..", "##", ".#", ".#"]),
  ('!', PF.p ["##", "##", "##", "##", "##", "..", "##", "##"]),
  ('?', PF.p [".###.", "##.##", "....#", "..###", "..#..", "..#..", ".....", "..#.."]),
  ('\'', PF.p ["##", "##", "##", "..", "..", "..", "..", ".."])] : List (Char × List (List Bool))).all FC.c4check = true := by decide

set_option maxRecDepth 40000 in
theorem c4chunk7 : ([
  ('-', PF.p ["....", "....", "....", "####", "....", "....", "....", "...."]),
  (':', PF.p ["..", "##", "##", "..", "..", "##", "##", ".."]),
  ('a', PF.p [".....", ".....", ".####", "....#", ".####", "##..#", "#...#", "#####"]),
  ('b', PF.p ["#....", "#....", "#....", "#####", "#...#", "#...#", "#..##", "####."]),
  ('c', PF.p [".....", ".....", ".###.", "##...", "#....", "#....", "##...", ".###."]),
  ('d', PF.p ["....#", "....#", "....#", ".####", "##..#", "#...#", "##.##", ".####"])] : List (Char × List (List Bool))).all FC.c4check = true := by decide

set_option maxRecDepth 40000 in
theorem c4chunk8 : ([
  ('e', PF.p [".....", ".....", "####.", "#..##", "#..##", "####.", "#....", "####."]),
  ('f', PF.p [".###.", ".#.#.", ".#...", "###..", ".#...", ".#...", ".#...", ".#..."]),
  ('g', PF.p [".....", ".....", "#####", "#...#", "##..#", ".####", "....#", ".####"]),
  ('h', PF.p ["#....", "#....", "#....", "####.", "#..##", "#...#", "#...#", "#...#"]),
  ('i', PF.p ["..#..", ".....", ".##..", "..#..", "..#..", "..#..", "..#..", ".###."]),
  ('j', PF.p ["...#.", ".....", "..###", "...#.", "...#.", "...#.", "..##.", ".##.."])] : List (Char × List (List Bool))).all FC.c4check = true := by decide

set_option maxRecDepth 40000 in
theorem c4chunk9 : ([
  ('k', PF.p ["#....", "#....", "#..#.", "#.##.", "###..", "#.##.", "#..#.", "#..#."]),
  ('l', PF.p ["##...", ".#...", ".#...", ".#...", ".#...", ".#...", ".#.#.", ".###."]),
  ('m', PF.p [".....", ".....", "#####", "#.#.#", "#.#.#", "#.#.#", "#...#", "#...#"]),
  ('n', PF.p [".....", ".....", ".###.", "##.##", "#...#", "#...#", "#...#", "#...#"]),
  ('o', PF.p [".....", ".....", ".###.", "##.##", "#...#", "#...#", "##.##", ".###."]),
  ('p', PF.p [".....", ".....", "#####", "#...#", "#..##", "####.", "#....", "#...."])] : List (Char × List (List Bool))).all FC.c4check = true := by decide

set_option maxRecDepth 40000 in
theorem c4chunk10 : ([
  ('q', PF.p [".....", ".....", "#####", "#...#", "##..#", ".####", "....#", "....#"]),
  ('r', PF.p ["....", "....", ".##.", "####", "#..#", "#...", "#...", "#..."]),
  ('s', PF.p [".....", ".....", "####.", "#....", "#####", "....#", "#...#", "#####"]),
  ('t', PF.p [".#...", ".#...", "####.", ".#...", ".#...", ".#...", ".##..", "..##."]),
  ('u', PF.p [".....", ".....", "#...#", "#...#", "#...#", "#...#", "##..#", ".####"]),
  ('v', PF.p [".....", ".....", "#...#", "#...#", "#...#", "##.##", ".###.", "..#.."])] : List (Char × List (List Bool))).all FC.c4check = true := by decide

set_option maxRecDepth 40000 in
theorem c4chunk11 : ([
  ('w', PF.p [".....", ".....", "#...#", "#...#", "#.#.#", "#.#.#", "#####", ".#.#."]),
  ('x', PF.p [".....", ".....", "#...#", "##.##", ".###.", "##.##", "#...#", "#...#"]),
  ('y', PF.p [".....", ".....", "#...#", "#...#", "##..#", ".####", "....#", ".####"]),
  ('z', PF.p [".....", ".....", "#####", "....#", "..###", "###..", "#....", "#####"])] : List (Char × List (List Bool))).all FC.c4check = true := by decide

theorem c2all : FC.font3chars.all FC.c2check = true := by
  rw [show FC.font3chars = ['A', 'B', 'C', 'D', 'E', 'F'] ++ ['G', 'H', 'I', 'J', 'K', 'L'] ++ ['M', 'N', 'O', 'P', 'Q', 'R'] ++ ['S', 'T', 'U', 'V', 'W', 'X'] ++ ['Y', 'Z', '0', '1', '2', '3'] ++ ['4', '5', '6', '7', '8', '9'] ++ [' ', '.', ',', '!', '?', '\"'] ++ ['\'', '-', ':', '♚', 'a', 'b'] ++ ['c', 'd', 'e', 'f', 'g', 'h'] ++ ['i', 'j', 'k', 'l', 'm', 'n'] ++ ['o', 'p', 'q', 'r', 's', 't'] ++ ['u', 'v', 'w', 'x', 'y', 'z'] from rfl]
  simp only [List.all_append, c2chunk0, c2chunk1, c2chunk2, c2chunk3, c2chunk4, c2chunk5, c2chunk6, c2chunk7, c2chunk8, c2chunk9, c2chunk10, c2chunk11, Bool.and_self]

theorem c4all : Font.PIXEL_FONT.all FC.c4check = true := by
  rw [show Font.PIXEL_FONT = [('A', PF.p [".###.", "##.##", "#...#", "#...#", "#####", "#...#", "#...#", "#...#"]), ('B', PF.p ["#####", "#...#", "#..##", "####.", "#..##", "#...#", "#...#", "#####"]), ('C', PF.p [".###.", "##...", "#....", "#....", "#....", "#....", "##...", ".###."]), ('D', PF.p ["####.", "#..##", "#...#", "#...#", "#...#", "#...#", "#..##", "####."]), ('E', PF.p ["#####", "#....", "#....", "####.", "#....", "#....", "#....", "#####"]), ('F', PF.p ["#####", "#....", "#....", "####.", "#....", "#....", "#....", "#...."])] ++ [('G', PF.p [".####", "##...", "#....", "#....", "#.###", "#...#", "#..##", "####."]), ('H', PF.p ["#...#", "#...#", "#...#", "#####", "#...#", "#...#", "#...#", "#...#"]), ('I', PF.p ["#####", "..#..", "..#..", "..#..", "..#..", "..#..", "..#..", "#####"]), ('J', PF.p ["#####", "....#", "....#", "....#", "....#", "#...#", "##.##", ".###."]), ('K', PF.p ["#...#", "#..##", "#.##.", "###..", "###..", "#.##.", "#..##", "#...#"]), ('L', PF.p ["#....", "#....", "#....", "#....", "#....", "#....", "#....", "#####"])] ++ [('M', PF.p ["#...#", "##.##", "#####", "#.#.#", "#.#.#", "#...#", "#...#", "#...#"]), ('N', PF.p ["#...#", "##..#", "###.#", "#.#.#", "#.#.#", "#.###", "#..##", "#...#"]), ('O', PF.p [".###.", "##.##", "#...#", "#...#", "#...#", "#...#", "##.##", ".###."]), ('P', PF.p ["#####", "#...#", "#...#", "#..##", "####.", "#....", "#....", "#...."]), ('Q', PF.p [".###.", "##.##", "#...#", "#...#", "#.#.#", "#.###", "##.##", ".####"]), ('R', PF.p ["#####", "#...#", "#...#", "####.", "###..", "#.##.", "#..##", "#...#"])] ++ [('S', PF.p ["#####", "#....", "##...", ".####", "....#", "....#", "#...#", "#####"]), ('T', PF.p ["#####", "..#..", "..#..", "..#..", "..#..", "..#..", "..#..", "..#.."]), ('U', PF.p ["#...#", "#...#", "#...#", "#...#", "#...#", "#...#", "##.##", ".###."]), ('V', PF.p ["#...#", "#...#", "#...#", "#...#", "#...#", "##.##", ".###.", "..#.."]), ('W', PF.p ["#...#", "#...#", "#...#", "#.#.#", "#.#.#", "#.#.#", "#####", ".#.#."]), ('X', PF.p ["#...#", "##.##", ".###.", "..#..", "..#..", ".###.", "##.##", "#...#"])] ++ [('Y', PF.p ["#...#", "#...#", "##.##", ".###.", "..#..", "..#..", "..#..", "..#.."]), ('Z', PF.p ["#####", "....#", "...##", "..##.", ".##..", "##...", "#....", "#####"]), ('0', PF.p [".###.", "##.##", "#...#", "#.#.#", "#.#.#", "#...#", "##.##", ".###."]), ('1', PF.p ["..#..", ".##..", "..#..", "..#..", "..#..", "..#..", "..#..", "#####"]), ('2', PF.p [".###.", "##.##", "....#", "..###", ".##..", "##...", "#....", "#####"]), ('3', PF.p [".###.", "##.##", "....#", "..###", "....#", "....#", "##.##", ".###."])] ++ [('4', PF.p ["#...#", "#...#", "#...#", "#####", "....#", "....#", "....#", "....#"]), ('5', PF.p ["#####", "#....", "#....", "#####", "....#", "....#", "##.##", ".###."]), ('6', PF.p [".####", "##..#", "#....", "####.", "#..##", "#...#", "##.##", ".###."]), ('7', PF.p ["#####", "....#", "....#", "...##", "..##.", "..#..", "..#..", "..#.."]), ('8', PF.p [".###.", "##.##", "#...#", "##.##", "#####", "#...#", "##.##", ".###."]), ('9', PF.p [".###.", "##.##", "#...#", "##.##", ".####", "....#", "#..##", "####."])] ++ [(' ', PF.p ["...", "...", "...", "...", "...", "...", "...", "..."]), ('.', PF.p ["..", "..", "..", "..", "..", "..", "##", "##"]), (',', PF.p ["..", "..", "..", "..", "..", "##", ".#", ".#"]), ('!', PF.p ["##", "##", "##", "##", "##", "..", "##", "##"]), ('?', PF.p [".###.", "##.##", "....#", "..###", "..#..", "..#..", ".....", "..#.."]), ('\'', PF.p ["##", "##", "##", "..", "..", "..", "..", ".."])] ++ [('-', PF.p ["....", "....", "....", "####", "....", "....", "....", "...."]), (':', PF.p ["..", "##", "##", "..", "..", "##", "##", ".."]), ('a', PF.p [".....", ".....", ".####", "....#", ".####", "##..#", "#...#", "#####"]), ('b', PF.p ["#....", "#....", "#....", "#####", "#...#", "#...#", "#..##", "####."]), ('c', PF.p [".....", ".....", ".###.", "##...", "#....", "#....", "##...", ".###."]), ('d', PF.p ["....#", "....#", "....#", ".####", "##..#", "#...#", "##.##", ".####"])] ++ [('e', PF.p [".....", ".....", "####.", "#..##", "#..##", "####.", "#....", "####."]), ('f', PF.p [".###.", ".#.#.", ".#...", "###..", ".#...", ".#...", ".#...", ".#..."]), ('g', PF.p [".....", ".....", "#####", "#...#", "##..#", ".####", "....#", ".####"]), ('h', PF.p ["#....", "#....", "#....", "####.", "#..##", "#...#", "#...#", "#...#"]), ('i', PF.p ["..#..", ".....", ".##..", "..#..", "..#..", "..#..", "..#..", ".###."]), ('j', PF.p ["...#.", ".....", "..###", "...#.", "...#.", "...#.", "..##.", ".##.."])] ++ [('k', PF.p ["#....", "#....", "#..#.", "#.##.", "###..", "#.##.", "#..#.", "#..#."]), ('l', PF.p ["##...", ".#...", ".#...", ".#...", ".#...", ".#...", ".#.#.", ".###."]), ('m', PF.p [".....", ".....", "#####", "#.#.#", "#.#.#", "#.#.#", "#...#", "#...#"]), ('n', PF.p [".....", ".....", ".###.", "##.##", "#...#", "#...#", "#...#", "#...#"]), ('o', PF.p [".....", ".....", ".###.", "##.##", "#...#", "#...#", "##.##", ".###."]), ('p', PF.p [".....", ".....", "#####", "#...#", "#..##", "####.", "#....", "#...."])] ++ [('q', PF.p [".....", ".....", "#####", "#...#", "##..#", ".####", "....#", "....#"]), ('r', PF.p ["....", "....", ".##.", "####", "#..#", "#...", "#...", "#..."]), ('s', PF.p [".....", ".....", "####.", "#....", "#####", "....#", "#...#", "#####"]), ('t', PF.p [".#...", ".#...", "####.", ".#...", ".#...", ".#...", ".##..", "..##."]), ('u', PF.p [".....", ".....", "#...#", "#...#", "#...#", "#...#", "##..#", ".####"]), ('v', PF.p [".....", ".....", "#...#", "#...#", "#...#", "##.##", ".###.", "..#.."])] ++ [('w', PF.p [".....", ".....", "#...#", "#...#", "#.#.#", "#.#.#", "#####", ".#.#."]), ('x', PF.p [".....", ".....", "#...#", "##.##", ".###.", "##.##", "#...#", "#...#"]), ('y', PF.p [".....", ".....", "#...#", "#...#", "##..#", ".####", "....#", ".####"]), ('z', PF.p [".....", ".....", "#####", "....#", "..###", "###..", "#....", "#####"])] from rfl]
  simp only [List.all_append, c4chunk0, c4chunk1, c4chunk2, c4chunk3, c4chunk4, c4chunk5, c4chunk6, c4chunk7, c4chunk8, c4chunk9, c4chunk10, c4chunk11, Bool.and_self]

set_option maxRecDepth 40000

/-- C2 counterexample: for the supported character `'0'` of part_003, the
pattern has two 4-connected filled components (the ring and the enclosed
center dot) but `getCharacterBoundaries('0').external` holds a single
boundary list, so "exactly one boundary list per 4-connected component"
fails. -/
theorem C2_component_boundaries_cx :
    (Font3.getCharacterBoundaries '0').external.length = 1 ∧
    Spec2.charCompCount '0' = 2 ∧
    (Font3.getCharacterBoundaries '0').external.length ≠ Spec2.charCompCount '0' := by
  refine ⟨by decide, by decide, ?_⟩
  rw [show (Font3.getCharacterBoundaries '0').external.length = 1 from by decide,
    show Spec2.charCompCount '0' = 2 from by decide]
  decide

/-- C2 (amended): for every supported character, `external` holds exactly
one boundary list per 4-connected filled component that has at least one
cell bordering the externally-reachable empty region (components with an
empty external boundary, such as the center dot of `'0'`, contribute no
list), in first-cell row-major order; each list holds exactly that
component's cells that have a neighbour in the externally-reachable empty
region, tagged with the side facing that neighbour.  `Spec2.specExternal`
is the specification-side description; in particular `'?'` and `':'`
still give two lists each. -/
theorem C2_component_boundaries :
    (∀ ce ∈ Font3.PIXEL_FONT,
      (Font3.getCharacterBoundaries ce.1).external.length =
        (Spec2.specExternal ce.1).length ∧
      ∀ j < (Spec2.specExternal ce.1).length,
        ((Font3.getCharacterBoundaries ce.1).external.getD j []).toFinset =
          ((Spec2.specExternal ce.1).getD j []).toFinset) ∧
    (Font3.getCharacterBoundaries '?').external.length = 2 ∧
    (Font3.getCharacterBoundaries ':').external.length = 2 := by
  have hmem : ∀ ce ∈ Font3.PIXEL_FONT, ce.1 ∈ FC.font3chars := by decide
  refine ⟨?_, ?_, ?_⟩
  · intro ce hce
    exact FC.chkLists_spec _ _ (List.all_eq_true.mp c2all ce.1 (hmem ce hce))
  · rw [(FC.chkLists_spec _ _ (List.all_eq_true.mp c2all '?' (by decide))).1]
    decide
  · rw [(FC.chkLists_spec _ _ (List.all_eq_true.mp c2all ':' (by decide))).1]
    decide

/-- Witness for C2 at character 'A', component 0. -/
theorem C2_component_boundaries_witness :
    ('A', PF.p [".###.", "##.##", "#...#", "#...#", "#####", "#...#", "#...#",
      "#...#"]) ∈ Font3.PIXEL_FONT ∧
    0 < (Spec2.specExternal 'A').length ∧
    ((Font3.getCharacterBoundaries 'A').external.getD 0 []).toFinset =
      ((Spec2.specExternal 'A').getD 0 []).toFinset :=
  ⟨by decide, by decide,
    (C2_component_boundaries.1 ('A', PF.p [".###.", "##.##", "#...#", "#...#",
      "#####", "#...#", "#...#", "#...#"]) (by decide)).2 0 (by decide)⟩

/-- C4: `getCharacterBoundaries('O').internal` has length 1, `'B'` has 2,
`'C'` has 0, and for every supported character every EntryPoint listed in
any external or internal boundary refers to a cell that is `true` in that
character's source pattern. -/
theorem C4_boundary_invariants :
    (Font.getCharacterBoundaries 'O').internal.length = 1 ∧
    (Font.getCharacterBoundaries 'B').internal.length = 2 ∧
    (Font.getCharacterBoundaries 'C').internal.length = 0 ∧
    ∀ ce ∈ Font.PIXEL_FONT,
      (∀ e ∈ (Font.getCharacterBoundaries ce.1).external,
        PF.gBool ce.2 e.y e.x = true) ∧
      (∀ reg ∈ (Font.getCharacterBoundaries ce.1).internal,
        ∀ e ∈ reg, PF.gBool ce.2 e.y e.x = true) := by
  refine ⟨by decide, by decide, by decide, ?_⟩
  intro ce hce
  exact FC.c4check_spec ce (List.all_eq_true.mp c4all ce hce)

/-- Witness for C4 at character 'A' and its first external boundary entry. -/
theorem C4_boundary_invariants_witness :
    ('A', PF.p [".###.", "##.##", "#...#", "#...#", "#####", "#...#", "#...#",
      "#...#"]) ∈ Font.PIXEL_FONT ∧
    (⟨1, 0, PF.Side.top⟩ : PF.EntryPoint) ∈
      (Font.getCharacterBoundaries 'A').external ∧
    PF.gBool (PF.p [".###.", "##.##", "#...#", "#...#", "#####", "#...#",
      "#...#", "#...#"]) 0 1 = true :=
  ⟨by decide, by decide,
    (C4_boundary_invariants.2.2.2 ('A', PF.p [".###.", "##.##", "#...#",
        "#...#", "#####", "#...#", "#...#", "#...#"]) (by decide)).1
      ⟨1, 0, PF.Side.top⟩ (by decide)⟩

namespace Ser

theorem hexVal_hexDigit : ∀ d < 16, hexVal (hexDigit d) = d := by decide

theorem hexPairs_flatMap (l : List Nat) (hl : ∀ b ∈ l, b < 256) :
    hexPairs (l.flatMap byteToHex) = l := by
  induction l with
  | nil => rfl
  | cons b r ih =>
    have hb : b < 256 := hl b (List.mem_cons_self _ _)
    simp only [List.flatMap_cons, byteToHex, List.cons_append, List.nil_append]
    rw [show hexPairs (hexDigit (b / 16) :: hexDigit (b % 16) :: r.flatMap byteToHex)
        = (16 * hexVal (hexDigit (b / 16)) + hexVal (hexDigit (b % 16))) ::
          hexPairs (r.flatMap byteToHex) from rfl,
      hexVal_hexDigit (b / 16) (by omega), hexVal_hexDigit (b % 16) (by omega),
      ih (fun x hx => hl x (List.mem_cons_of_mem _ hx))]
    congr 1
    omega

theorem getD_map_range {α : Type} (f : Nat → α) (n i : Nat) (d : α) :
    ((List.range n).map f).getD i d = if i < n then f i else d := by
  rcases Nat.lt_or_ge i n with h | h
  · rw [if_pos h, List.getD_eq_getElem?_getD, List.getElem?_map, List.getElem?_range h]
    rfl
  · rw [if_neg (by omega), List.getD_eq_getElem?_getD, List.getElem?_map,
      List.getElem?_eq_none (by simpa using h)]
    rfl

theorem allLt_set {l : List Nat} (hl : ∀ j, l.getD j 0 < 256) {i v : Nat}
    (hv : v < 256) : ∀ j, (l.set i v).getD j 0 < 256 := by
  intro j
  by_cases hij : i = j
  · subst hij
    rcases Nat.lt_or_ge i l.length with h | h
    · rw [MG.getD_set_self h]
      exact hv
    · rw [List.set_eq_of_length_le h]
      exact hl i
  · rw [MG.getD_set_ne hij]
    exact hl j

theorem allLt_setU16 {l : List Nat} (hl : ∀ j, l.getD j 0 < 256) (off v : Nat) :
    ∀ j, (setU16 l off v).getD j 0 < 256 :=
  allLt_set (allLt_set hl (by omega)) (by omega)

theorem allLt_orWrite {l : List Nat} (hl : ∀ j, l.getD j 0 < 256) (i v : Nat) :
    ∀ j, (orWrite l i v).getD j 0 < 256 :=
  allLt_set hl (Nat.mod_lt _ (by norm_num))

theorem allLt_packFold (m : MG.MazeData) (L : List Nat) :
    ∀ l, (∀ j, l.getD j 0 < 256) →
    ∀ j, (L.foldl (fun buf i => orWrite buf (byteIdx i) (contrib m i)) l).getD j 0 < 256 := by
  induction L with
  | nil => exact fun l hl => hl
  | cons i L ih =>
    intro l hl
    exact ih _ (allLt_orWrite hl _ _)

theorem lt_of_mem_of_allLt {l : List Nat} (h : ∀ j, l.getD j 0 < 256) :
    ∀ b ∈ l, b < 256 := by
  intro b hb
  obtain ⟨j, hj, rfl⟩ := List.mem_iff_getElem.mp hb
  have hx := h j
  rw [List.getD_eq_getElem?_getD, List.getElem?_eq_getElem hj] at hx
  exact hx

theorem packFold_getD_lt16 (m : MG.MazeData) (L : List Nat) :
    ∀ l j, j < 16 →
    (L.foldl (fun buf i => orWrite buf (byteIdx i) (contrib m i)) l).getD j 0
      = l.getD j 0 := by
  induction L with
  | nil => intros; rfl
  | cons i L ih =>
    intro l j hj
    rw [List.foldl_cons, ih _ j hj]
    unfold orWrite
    rw [MG.getD_set_ne]
    unfold byteIdx
    omega

theorem orWrite_getD (l : List Nat) (b c k : Nat) (hb : b < l.length) :
    (orWrite l b c).getD k 0
      = if b = k then (l.getD k 0 ||| c) % 256 else l.getD k 0 := by
  unfold orWrite
  by_cases h : b = k
  · subst h
    rw [if_pos rfl, MG.getD_set_self hb]
  · rw [if_neg h, MG.getD_set_ne h]

theorem packFold_getD (m : MG.MazeData) (L : List Nat) :
    ∀ l k, (∀ i ∈ L, byteIdx i < l.length) →
    (L.foldl (fun buf i => orWrite buf (byteIdx i) (contrib m i)) l).getD k 0
      = L.foldl (fun acc i =>
          if byteIdx i = k then (acc ||| contrib m i) % 256 else acc)
        (l.getD k 0) := by
  induction L with
  | nil => intros; rfl
  | cons i L ih =>
    intro l k hL
    rw [List.foldl_cons, List.foldl_cons,
      ih _ k (fun j hj => by
        rw [show (orWrite l (byteIdx i) (contrib m i)).length = l.length from by
          simp [orWrite]]
        exact hL j (List.mem_cons_of_mem _ hj)),
      orWrite_getD l _ _ k (hL i (List.mem_cons_self _ _))]

theorem or_mod256 {a : Nat} (ha : a < 256) (b : Nat) :
    (a ||| b) % 256 = a ||| b % 256 := by
  have h256 : (256 : Nat) = 2 ^ 8 := by norm_num
  have e1 : (a ||| b) % 256 = (a ||| b) &&& (2 ^ 8 - 1) := by
    rw [Nat.and_pow_two_sub_one_eq_mod, h256]
  have e2 : b % 256 = b &&& (2 ^ 8 - 1) := by
    rw [Nat.and_pow_two_sub_one_eq_mod, h256]
  rw [e1, e2, Nat.and_comm _ (2 ^ 8 - 1), Nat.and_or_distrib_left,
    Nat.and_comm (2 ^ 8 - 1) a, Nat.and_comm (2 ^ 8 - 1) b,
    Nat.and_pow_two_sub_one_of_lt_two_pow (h256 ▸ ha)]

theorem extract_or (a b s : Nat) :
    ((a ||| b) >>> s) &&& 7 = ((a >>> s) &&& 7) ||| ((b >>> s) &&& 7) := by
  apply Nat.eq_of_testBit_eq
  intro i
  simp [Nat.testBit_and, Nat.testBit_or, Nat.testBit_shiftRight, Bool.and_or_distrib_right]

theorem contrib_self_bits : ∀ v < 8, ∀ r < 6,
    (((v <<< (5 - r)) % 256) >>> (5 - r)) &&& 7 = v := by decide

theorem contrib_other_bits : ∀ v < 8, ∀ ri < 6, ∀ rj < 6, ri ≠ rj → ri % 3 = rj % 3 →
    (((v <<< (5 - rj)) % 256) >>> (5 - ri)) &&& 7 = 0 := by decide

theorem contrib_lost_mod (v : Nat) : ∀ r, 6 ≤ r → r < 8 →
    (v <<< jsShift r) % 256 = 0 := by
  intro r h6 h8
  interval_cases r <;>
    · rw [Nat.shiftLeft_eq]
      norm_num [jsShift]
      omega

theorem jsShift_small {r : Nat} (h : r < 6) : jsShift r = 5 - r := by
  unfold jsShift
  omega

theorem cellValue_lt (c : MG.Cell) : cellValue c < 8 := by
  obtain ⟨s, e, t, z⟩ := c
  cases s <;> cases e <;> cases t <;> cases z <;> decide

theorem rem_cases (i j : Nat) (hne : i ≠ j) (hq : 3 * i / 8 = 3 * j / 8) :
    3 * i % 8 ≠ 3 * j % 8 ∧ 3 * i % 8 % 3 = 3 * j % 8 % 3 := by
  omega

theorem extract_contrib_self (m : MG.MazeData) (i : Nat) (hr : 3 * i % 8 < 6) :
    ((contrib m i % 256) >>> jsShift (3 * i % 8)) &&& 7
      = cellValue (MG.getCell m (i % m.width) (i / m.width)) := by
  rw [contrib, jsShift_small hr]
  exact contrib_self_bits _ (cellValue_lt _) _ hr

theorem extract_contrib_other (m : MG.MazeData) {i j : Nat} (hr : 3 * i % 8 < 6)
    (hne : j ≠ i) (hq : byteIdx j = byteIdx i) :
    ((contrib m j % 256) >>> jsShift (3 * i % 8)) &&& 7 = 0 := by
  have hqq : 3 * j / 8 = 3 * i / 8 := by
    unfold byteIdx at hq
    omega
  rcases Nat.lt_or_ge (3 * j % 8) 6 with hj | hj
  · obtain ⟨h1, h2⟩ := rem_cases i j (fun h => hne h.symm) hqq.symm
    rw [contrib, jsShift_small hr, jsShift_small hj]
    exact contrib_other_bits _ (cellValue_lt _) _ hr _ hj h1 h2
  · rw [contrib, contrib_lost_mod _ _ hj (by omega)]
    simp

theorem foldAcc_extract (m : MG.MazeData) (i₀ : Nat) (hr : 3 * i₀ % 8 < 6)
    (L : List Nat) :
    ∀ a, a < 256 →
    ((L.foldl (fun acc j =>
        if byteIdx j = byteIdx i₀ then (acc ||| contrib m j) % 256 else acc) a)
      >>> jsShift (3 * i₀ % 8)) &&& 7
    = ((a >>> jsShift (3 * i₀ % 8)) &&& 7) |||
      (if i₀ ∈ L then
        cellValue (MG.getCell m (i₀ % m.width) (i₀ / m.width)) else 0) := by
  induction L with
  | nil =>
    intro a _
    simp
  | cons j L ih =>
    intro a ha
    rw [List.foldl_cons]
    by_cases hb : byteIdx j = byteIdx i₀
    · rw [if_pos hb, ih _ (Nat.mod_lt _ (by norm_num)), or_mod256 ha, extract_or]
      by_cases hji : j = i₀
      · subst hji
        rw [extract_contrib_self m j hr, if_pos (List.mem_cons_self j L),
          Nat.or_assoc]
        by_cases hmem : j ∈ L
        · rw [if_pos hmem, Nat.or_self]
        · rw [if_neg hmem, Nat.or_zero]
      · rw [extract_contrib_other m hr hji hb, Nat.or_zero]
        by_cases hmem : i₀ ∈ L
        · rw [if_pos hmem, if_pos (List.mem_cons_of_mem _ hmem)]
        · rw [if_neg hmem, if_neg (by
            intro hc
            rcases List.mem_cons.mp hc with hc | hc
            · exact hji hc.symm
            · exact hmem hc)]
    · rw [if_neg hb, ih a ha]
      have hji : j ≠ i₀ := fun h => hb (h ▸ rfl)
      by_cases hmem : i₀ ∈ L
      · rw [if_pos hmem, if_pos (List.mem_cons_of_mem _ hmem)]
      · rw [if_neg hmem, if_neg (by
          intro hc
          rcases List.mem_cons.mp hc with hc | hc
          · exact hji hc.symm
          · exact hmem hc)]

theorem setU16_length (l : List Nat) (off v : Nat) :
    (setU16 l off v).length = l.length := by
  simp [setU16]

theorem getD_replicate_zero (n k : Nat) : (List.replicate n 0).getD k 0 = 0 := by
  rw [List.getD_eq_getElem?_getD, List.getElem?_replicate]
  split <;> rfl

theorem getD_setU16_ne (l : List Nat) (off v j : Nat) (h1 : j ≠ off)
    (h2 : j ≠ off + 1) : (setU16 l off v).getD j 0 = l.getD j 0 := by
  unfold setU16
  rw [MG.getD_set_ne (fun h => h2 h.symm), MG.getD_set_ne (fun h => h1 h.symm)]

theorem getU16_setU16_self (l : List Nat) (off v : Nat) (h : off + 1 < l.length) :
    getU16 (setU16 l off v) off = v % 65536 := by
  unfold getU16 setU16
  rw [MG.getD_set_ne (by omega), MG.getD_set_self (by omega),
    MG.getD_set_self (by simpa using h)]
  omega

theorem getU16_setU16_ne (l : List Nat) (off v t : Nat) (h1 : t ≠ off)
    (h2 : t ≠ off + 1) (h3 : t + 1 ≠ off) (h4 : t + 1 ≠ off + 1) :
    getU16 (setU16 l off v) t = getU16 l t := by
  unfold getU16
  rw [getD_setU16_ne l off v t h1 h2, getD_setU16_ne l off v (t + 1) h3 h4]

theorem headerBuf_length (m : MG.MazeData) (kp keyP dp : MG.Position) :
    (headerBuf m kp keyP dp).length = 16 + (m.width * m.height * 3 + 7) / 8 := by
  simp [headerBuf, setU16_length]

theorem headerBuf_getD_ge16 (m : MG.MazeData) (kp keyP dp : MG.Position)
    (k : Nat) (hk : 16 ≤ k) : (headerBuf m kp keyP dp).getD k 0 = 0 := by
  unfold headerBuf
  rw [getD_setU16_ne _ 14 _ k (by omega) (by omega),
    getD_setU16_ne _ 12 _ k (by omega) (by omega),
    getD_setU16_ne _ 10 _ k (by omega) (by omega),
    getD_setU16_ne _ 8 _ k (by omega) (by omega),
    getD_setU16_ne _ 6 _ k (by omega) (by omega),
    getD_setU16_ne _ 4 _ k (by omega) (by omega),
    getD_setU16_ne _ 2 _ k (by omega) (by omega),
    getD_setU16_ne _ 0 _ k (by omega) (by omega),
    getD_replicate_zero]

theorem headerBuf_allLt (m : MG.MazeData) (kp keyP dp : MG.Position) :
    ∀ j, (headerBuf m kp keyP dp).getD j 0 < 256 := by
  unfold headerBuf
  exact allLt_setU16 (allLt_setU16 (allLt_setU16 (allLt_setU16 (allLt_setU16
    (allLt_setU16 (allLt_setU16 (allLt_setU16
      (fun j => by rw [getD_replicate_zero]; norm_num) _ _) _ _) _ _) _ _)
    _ _) _ _) _ _) _ _

theorem headerBuf_g0 (m : MG.MazeData) (kp keyP dp : MG.Position) :
    getU16 (headerBuf m kp keyP dp) 0 = m.width % 65536 := by
  unfold headerBuf
  rw [getU16_setU16_ne _ 14 _ 0 (by omega) (by omega) (by omega) (by omega),
    getU16_setU16_ne _ 12 _ 0 (by omega) (by omega) (by omega) (by omega),
    getU16_setU16_ne _ 10 _ 0 (by omega) (by omega) (by omega) (by omega),
    getU16_setU16_ne _ 8 _ 0 (by omega) (by omega) (by omega) (by omega),
    getU16_setU16_ne _ 6 _ 0 (by omega) (by omega) (by omega) (by omega),
    getU16_setU16_ne _ 4 _ 0 (by omega) (by omega) (by omega) (by omega),
    getU16_setU16_ne _ 2 _ 0 (by omega) (by omega) (by omega) (by omega),
    getU16_setU16_self _ _ _ (by simp [setU16_length]; omega)]

theorem headerBuf_g2 (m : MG.MazeData) (kp keyP dp : MG.Position) :
    getU16 (headerBuf m kp keyP dp) 2 = m.height % 65536 := by
  unfold headerBuf
  rw [getU16_setU16_ne _ 14 _ 2 (by omega) (by omega) (by omega) (by omega),
    getU16_setU16_ne _ 12 _ 2 (by omega) (by omega) (by omega) (by omega),
    getU16_setU16_ne _ 10 _ 2 (by omega) (by omega) (by omega) (by omega),
    getU16_setU16_ne _ 8 _ 2 (by omega) (by omega) (by omega) (by omega),
    getU16_setU16_ne _ 6 _ 2 (by omega) (by omega) (by omega) (by omega),
    getU16_setU16_ne _ 4 _ 2 (by omega) (by omega) (by omega) (by omega),
    getU16_setU16_self _ _ _ (by simp [setU16_length]; omega)]

theorem headerBuf_g4 (m : MG.MazeData) (kp keyP dp : MG.Position) :
    getU16 (headerBuf m kp keyP dp) 4 = kp.x % 65536 := by
  unfold headerBuf
  rw [getU16_setU16_ne _ 14 _ 4 (by omega) (by omega) (by omega) (by omega),
    getU16_setU16_ne _ 12 _ 4 (by omega) (by omega) (by omega) (by omega),
    getU16_setU16_ne _ 10 _ 4 (by omega) (by omega) (by omega) (by omega),
    getU16_setU16_ne _ 8 _ 4 (by omega) (by omega) (by omega) (by omega),
    getU16_setU16_ne _ 6 _ 4 (by omega) (by omega) (by omega) (by omega),
    getU16_setU16_self _ _ _ (by simp [setU16_length]; omega)]

theorem headerBuf_g6 (m : MG.MazeData) (kp keyP dp : MG.Position) :
    getU16 (headerBuf m kp keyP dp) 6 = kp.y % 65536 := by
  unfold headerBuf
  rw [getU16_setU16_ne _ 14 _ 6 (by omega) (by omega) (by omega) (by omega),
    getU16_setU16_ne _ 12 _ 6 (by omega) (by omega) (by omega) (by omega),
    getU16_setU16_ne _ 10 _ 6 (by omega) (by omega) (by omega) (by omega),
    getU16_setU16_ne _ 8 _ 6 (by omega) (by omega) (by omega) (by omega),
    getU16_setU16_self _ _ _ (by simp [setU16_length]; omega)]

theorem headerBuf_g8 (m : MG.MazeData) (kp keyP dp : MG.Position) :
    getU16 (headerBuf m kp keyP dp) 8 = keyP.x % 65536 := by
  unfold headerBuf
  rw [getU16_setU16_ne _ 14 _ 8 (by omega) (by omega) (by omega) (by omega),
    getU16_setU16_ne _ 12 _ 8 (by omega) (by omega) (by omega) (by omega),
    getU16_setU16_ne _ 10 _ 8 (by omega) (by omega) (by omega) (by omega),
    getU16_setU16_self _ _ _ (by simp [setU16_length]; omega)]

theorem headerBuf_g10 (m : MG.MazeData) (kp keyP dp : MG.Position) :
    getU16 (headerBuf m kp keyP dp) 10 = keyP.y % 65536 := by
  unfold headerBuf
  rw [getU16_setU16_ne _ 14 _ 10 (by omega) (by omega) (by omega) (by omega),
    getU16_setU16_ne _ 12 _ 10 (by omega) (by omega) (by omega) (by omega),
    getU16_setU16_self _ _ _ (by simp [setU16_length]; omega)]

theorem headerBuf_g12 (m : MG.MazeData) (kp keyP dp : MG.Position) :
    getU16 (headerBuf m kp keyP dp) 12 = dp.x % 65536 := by
  unfold headerBuf
  rw [getU16_setU16_ne _ 14 _ 12 (by omega) (by omega) (by omega) (by omega),
    getU16_setU16_self _ _ _ (by simp [setU16_length]; omega)]

theorem headerBuf_g14 (m : MG.MazeData) (kp keyP dp : MG.Position) :
    getU16 (headerBuf m kp keyP dp) 14 = dp.y % 65536 := by
  unfold headerBuf
  rw [getU16_setU16_self _ _ _ (by simp [setU16_length]; omega)]

theorem packed_allLt (m : MG.MazeData) (kp keyP dp : MG.Position) :
    ∀ j, (packedBytes m kp keyP dp).getD j 0 < 256 := by
  unfold packedBytes packCellsLoop
  exact allLt_packFold m _ _ (headerBuf_allLt m kp keyP dp)

theorem bytes_eq (m : MG.MazeData) (kp keyP dp : MG.Position) :
    hexPairs (serializeMaze m kp keyP dp) = packedBytes m kp keyP dp := by
  unfold serializeMaze
  exact hexPairs_flatMap _ (lt_of_mem_of_allLt (packed_allLt m kp keyP dp))

theorem packed_getU16 (m : MG.MazeData) (kp keyP dp : MG.Position) (t : Nat)
    (ht : t + 1 < 16) :
    getU16 (packedBytes m kp keyP dp) t = getU16 (headerBuf m kp keyP dp) t := by
  unfold packedBytes packCellsLoop getU16
  rw [packFold_getD_lt16 m _ _ t (by omega), packFold_getD_lt16 m _ _ (t + 1) ht]

theorem shiftRight_and7_lost {b : Nat} (hb : b < 256) {s : Nat} (hs : 8 ≤ s) :
    (b >>> s) &&& 7 = 0 := by
  rw [Nat.shiftRight_eq_div_pow,
    Nat.div_eq_of_lt (lt_of_lt_of_le hb
      (le_trans (by norm_num) (Nat.pow_le_pow_right (by norm_num) hs)))]
  rfl

theorem packed_readCell (m : MG.MazeData) (kp keyP dp : MG.Position) (i : Nat)
    (hi : i < m.width * m.height) (hr : 3 * i % 8 < 6) :
    readCellVal (packedBytes m kp keyP dp) i
      = cellValue (MG.getCell m (i % m.width) (i / m.width)) := by
  unfold readCellVal packedBytes packCellsLoop
  rw [packFold_getD m _ _ (byteIdx i) (by
      intro j hj
      rw [headerBuf_length]
      have := List.mem_range.mp hj
      unfold byteIdx
      omega),
    headerBuf_getD_ge16 m kp keyP dp _ (by unfold byteIdx; omega),
    foldAcc_extract m i hr _ 0 (by norm_num),
    if_pos (List.mem_range.mpr hi)]
  simp

theorem packed_readCell_lost (m : MG.MazeData) (kp keyP dp : MG.Position)
    (i : Nat) (hr : 6 ≤ 3 * i % 8) :
    readCellVal (packedBytes m kp keyP dp) i = 0 := by
  unfold readCellVal
  refine shiftRight_and7_lost (packed_allLt m kp keyP dp _) ?_
  unfold jsShift
  have h8 : 3 * i % 8 < 8 := Nat.mod_lt _ (by norm_num)
  rcases (by omega : 3 * i % 8 = 6 ∨ 3 * i % 8 = 7) with h | h <;> rw [h] <;>
    norm_num

theorem readback_cellValue (c : MG.Cell) :
    (⟨cellValue c &&& 4 != 0, cellValue c &&& 2 != 0,
      cellValue c &&& 1 != 0, false⟩ : MG.Cell)
      = { c with isZkCell := false } := by
  obtain ⟨s, e, t, z⟩ := c
  cases s <;> cases e <;> cases t <;> cases z <;> decide

theorem deser_getCell (data : List Char) (x y : Nat)
    (hx : x < getU16 (hexPairs data) 0) (hy : y < getU16 (hexPairs data) 2) :
    MG.getCell (deserializeMaze data).maze x y
      = (⟨readCellVal (hexPairs data) (y * getU16 (hexPairs data) 0 + x) &&& 4 != 0,
          readCellVal (hexPairs data) (y * getU16 (hexPairs data) 0 + x) &&& 2 != 0,
          readCellVal (hexPairs data) (y * getU16 (hexPairs data) 0 + x) &&& 1 != 0,
          false⟩ : MG.Cell) := by
  unfold deserializeMaze MG.getCell
  simp only
  rw [getD_map_range, if_pos hy, getD_map_range, if_pos hx]

/-- C7 (amended): serialize/deserialize round-trips the header exactly,
and round-trips exactly the cells whose row-major index `i` has
`3 * i % 8 < 6` (`i % 8 ∉ {2, 5}`); the other cells come back all-false. -/
theorem C7_serialize_roundtrip (m : MG.MazeData) (kp keyP dp : MG.Position)
    (hw : m.width < 65536) (hh : m.height < 65536)
    (hkx : kp.x < 65536) (hky : kp.y < 65536) (hex : keyP.x < 65536)
    (hey : keyP.y < 65536) (hdx : dp.x < 65536) (hdy : dp.y < 65536) :
    (deserializeMaze (serializeMaze m kp keyP dp)).maze.width = m.width ∧
    (deserializeMaze (serializeMaze m kp keyP dp)).maze.height = m.height ∧
    (deserializeMaze (serializeMaze m kp keyP dp)).kingPos = kp ∧
    (deserializeMaze (serializeMaze m kp keyP dp)).keyPos = keyP ∧
    (deserializeMaze (serializeMaze m kp keyP dp)).doorPos = dp ∧
    ∀ x y, x < m.width → y < m.height →
      (3 * (y * m.width + x) % 8 < 6 →
        MG.getCell (deserializeMaze (serializeMaze m kp keyP dp)).maze x y
          = { MG.getCell m x y with isZkCell := false }) ∧
      (6 ≤ 3 * (y * m.width + x) % 8 →
        MG.getCell (deserializeMaze (serializeMaze m kp keyP dp)).maze x y
          = ⟨false, false, false, false⟩) := by
  have hb := bytes_eq m kp keyP dp
  have g0 : getU16 (hexPairs (serializeMaze m kp keyP dp)) 0 = m.width := by
    rw [hb, packed_getU16 m kp keyP dp 0 (by norm_num), headerBuf_g0]
    exact Nat.mod_eq_of_lt hw
  have g2 : getU16 (hexPairs (serializeMaze m kp keyP dp)) 2 = m.height := by
    rw [hb, packed_getU16 m kp keyP dp 2 (by norm_num), headerBuf_g2]
    exact Nat.mod_eq_of_lt hh
  have g4 : getU16 (hexPairs (serializeMaze m kp keyP dp)) 4 = kp.x := by
    rw [hb, packed_getU16 m kp keyP dp 4 (by norm_num), headerBuf_g4]
    exact Nat.mod_eq_of_lt hkx
  have g6 : getU16 (hexPairs (serializeMaze m kp keyP dp)) 6 = kp.y := by
    rw [hb, packed_getU16 m kp keyP dp 6 (by norm_num), headerBuf_g6]
    exact Nat.mod_eq_of_lt hky
  have g8 : getU16 (hexPairs (serializeMaze m kp keyP dp)) 8 = keyP.x := by
    rw [hb, packed_getU16 m kp keyP dp 8 (by norm_num), headerBuf_g8]
    exact Nat.mod_eq_of_lt hex
  have g10 : getU16 (hexPairs (serializeMaze m kp keyP dp)) 10 = keyP.y := by
    rw [hb, packed_getU16 m kp keyP dp 10 (by norm_num), headerBuf_g10]
    exact Nat.mod_eq_of_lt hey
  have g12 : getU16 (hexPairs (serializeMaze m kp keyP dp)) 12 = dp.x := by
    rw [hb, packed_getU16 m kp keyP dp 12 (by norm_num), headerBuf_g12]
    exact Nat.mod_eq_of_lt hdx
  have g14 : getU16 (hexPairs (serializeMaze m kp keyP dp)) 14 = dp.y := by
    rw [hb, packed_getU16 m kp keyP dp 14 (by norm_num), headerBuf_g14]
    exact Nat.mod_eq_of_lt hdy
  refine ⟨?_, ?_, ?_, ?_, ?_, ?_⟩
  · simp only [deserializeMaze]
    exact g0
  · simp only [deserializeMaze]
    exact g2
  · simp only [deserializeMaze]
    rw [g4, g6]
  · simp only [deserializeMaze]
    rw [g8, g10]
  · simp only [deserializeMaze]
    rw [g12, g14]
  · intro x y hx hy
    have hw0 : 0 < m.width := by omega
    have hi : y * m.width + x < m.width * m.height := by
      have h1 : y * m.width + x < (y + 1) * m.width := by
        rw [Nat.succ_mul]
        omega
      have h2 : (y + 1) * m.width ≤ m.height * m.width :=
        Nat.mul_le_mul_right _ hy
      calc y * m.width + x < (y + 1) * m.width := h1
        _ ≤ m.height * m.width := h2
        _ = m.width * m.height := Nat.mul_comm _ _
    have hcell := deser_getCell (serializeMaze m kp keyP dp) x y
      (by rw [g0]; exact hx) (by rw [g2]; exact hy)
    rw [g0] at hcell
    have hmod : (y * m.width + x) % m.width = x := by
      rw [Nat.mul_comm y m.width, Nat.mul_add_mod, Nat.mod_eq_of_lt hx]
    have hdiv : (y * m.width + x) / m.width = y := by
      rw [Nat.mul_comm y m.width, Nat.mul_add_div hw0, Nat.div_eq_of_lt hx,
        Nat.add_zero]
    constructor
    · intro hr
      rw [hcell, hb, packed_readCell m kp keyP dp _ hi hr, hmod, hdiv]
      exact readback_cellValue _
    · intro hr
      rw [hcell, hb, packed_readCell_lost m kp keyP dp _ hr]
      rfl

/-- C7 counterexample: a 3×1 all-walls maze does not round-trip: cell
index 2 (bit offset 6 in its byte) loses its flags. -/
theorem C7_roundtrip_cx :
    (deserializeMaze (serializeMaze cxMaze ⟨0, 0⟩ ⟨0, 0⟩ ⟨0, 0⟩)).maze
      ≠ cxMaze ∧
    (MG.getCell cxMaze 2 0).southWall = true ∧
    (MG.getCell (deserializeMaze
      (serializeMaze cxMaze ⟨0, 0⟩ ⟨0, 0⟩ ⟨0, 0⟩)).maze 2 0).southWall
      = false := by decide

/-- Witness: the amended C7 theorem applied to the 3×1 fixture. -/
theorem C7_serialize_roundtrip_witness :
    (deserializeMaze (serializeMaze cxMaze ⟨1, 0⟩ ⟨2, 0⟩ ⟨0, 0⟩)).maze.width
      = cxMaze.width ∧
    (deserializeMaze (serializeMaze cxMaze ⟨1, 0⟩ ⟨2, 0⟩ ⟨0, 0⟩)).maze.height
      = cxMaze.height ∧
    (deserializeMaze (serializeMaze cxMaze ⟨1, 0⟩ ⟨2, 0⟩ ⟨0, 0⟩)).kingPos
      = ⟨1, 0⟩ ∧
    (deserializeMaze (serializeMaze cxMaze ⟨1, 0⟩ ⟨2, 0⟩ ⟨0, 0⟩)).keyPos
      = ⟨2, 0⟩ ∧
    (deserializeMaze (serializeMaze cxMaze ⟨1, 0⟩ ⟨2, 0⟩ ⟨0, 0⟩)).doorPos
      = ⟨0, 0⟩ ∧
    ∀ x y, x < cxMaze.width → y < cxMaze.height →
      (3 * (y * cxMaze.width + x) % 8 < 6 →
        MG.getCell (deserializeMaze
          (serializeMaze cxMaze ⟨1, 0⟩ ⟨2, 0⟩ ⟨0, 0⟩)).maze x y
          = { MG.getCell cxMaze x y with isZkCell := false }) ∧
      (6 ≤ 3 * (y * cxMaze.width + x) % 8 →
        MG.getCell (deserializeMaze
          (serializeMaze cxMaze ⟨1, 0⟩ ⟨2, 0⟩ ⟨0, 0⟩)).maze x y
          = ⟨false, false, false, false⟩) :=
  C7_serialize_roundtrip cxMaze ⟨1, 0⟩ ⟨2, 0⟩ ⟨0, 0⟩ (by decide) (by decide)
    (by decide) (by decide) (by decide) (by decide) (by decide) (by decide)

end Ser
